import Mathlib

/-!
Verification of the per-day record identity and mutation-authorization engine
of the Capstone client daily-documentation server (Express/Mongoose backend).

The JavaScript handlers are shallowly embedded as pure Lean functions over an
explicit store.  Conventions used throughout:

* Mongo ObjectIds are modelled as `Nat`; every id value in the model is a well
  formed id, so the `isValidObjectId` format guards of the routes always pass
  and are not modelled.
* Timestamps are `Nat` milliseconds in the server's local timezone.  A caller
  supplied `YYYY-MM-DD` date string is pre-parsed to its day index `d`; the
  local midnight produced by `new Date(year, month - 1, day, 0, 0, 0, 0)` is
  `d * dayMs`.  Unparseable date strings (the `isNaN` guards) are outside the
  model.
* JavaScript string trimming is embedded as `jsTrim` (drop leading and
  trailing whitespace), and `s.length` as the character count; request fields
  that JavaScript destructures from `req.body` are `Option` valued, `none`
  standing for `undefined`.  Where the source tests bare truthiness of a
  string (`!value`, `if (value)`), the empty string is falsy and is checked
  explicitly.
* Mongoose collections are lists; `Model.findOne`/`findById` is `List.find?`,
  an in-place `save` of a fetched document is a `List.map` replacing the
  document with the matching id, and `create` conses a fresh document whose id
  is the store's next id.
-/

namespace Capstone

/-- Milliseconds in one calendar day. -/
def dayMs : Nat := 86400000

/-- Day index of a millisecond timestamp: the local calendar day it falls in. -/
def dayOf (t : Nat) : Nat := t / dayMs

/-- Local midnight of the day containing `t`: `setHours(0, 0, 0, 0)`. -/
def startOfDayMs (t : Nat) : Nat := dayOf t * dayMs

/-- Last millisecond of the day containing `t`: `setHours(23, 59, 59, 999)`. -/
def endOfDayMs (t : Nat) : Nat := startOfDayMs t + (dayMs - 1)

/-- JavaScript `String.prototype.trim()`: drop leading and trailing whitespace.
Embedded over the character list so that it evaluates inside the kernel. -/
def jsTrim (s : String) : String :=
  ⟨((s.data.dropWhile Char.isWhitespace).reverse.dropWhile Char.isWhitespace).reverse⟩

/-- Character count of a string, the model of JavaScript `s.length`. -/
def jsLength (s : String) : Nat := s.data.length

/-- User roles: the `role` enum of the user schema. -/
inductive Role
  | staff
  | admin
deriving DecidableEq, Repr

/-- Entry categories: the `category` enum of the entry schema. -/
inductive Category
  | meals
  | behavior
  | outing
  | medical
  | notes
deriving DecidableEq, Repr

/-- Membership test in `validCategories`, phrased as a parse of the raw
category string; `none` is a string outside the enum. -/
def parseCategory (s : String) : Option Category :=
  if s = "meals" then some Category.meals
  else if s = "behavior" then some Category.behavior
  else if s = "outing" then some Category.outing
  else if s = "medical" then some Category.medical
  else if s = "notes" then some Category.notes
  else none

/-- User document: the fields of the user schema that the engine reads. -/
structure User where
  id : Nat
  role : Role
  assignedClients : List Nat
deriving DecidableEq, Repr

/-- Client document (photo, notes and enabledCategories are never read by the
embedded handlers and are omitted). -/
structure Client where
  id : Nat
  name : String
  isActive : Bool
deriving DecidableEq, Repr

/-- Identity context attached by the `auth` middleware: `req.user = ⟨id, role⟩`. -/
structure Actor where
  id : Nat
  role : Role
deriving DecidableEq, Repr

/-- Access check shared by the entry, card and card-entry routes: admins have
access to every client, staff only to clients in their `assignedClients`. -/
def hasClientAccess (users : List User) (userId : Nat) (userRole : Role)
    (clientId : Nat) : Bool :=
  if userRole = Role.admin then
    true
  else
    match users.find? (fun u => decide (u.id = userId)) with
    | none => false
    | some u => u.assignedClients.contains clientId

/-- Category entry document (`Entry` model).  `timestamps: true` supplies
`createdAt`, which the entry route also overwrites with a caller supplied
date, making it the effective date of the record. -/
structure Entry where
  id : Nat
  clientId : Nat
  category : Category
  description : String
  createdAt : Nat
deriving DecidableEq, Repr

/-- Body of a create-entry request.  `date` is the pre-parsed day index of the
`YYYY-MM-DD` string.  `mealType` is sent by the meal-logging UI but the route
never destructures it, so the handler below never reads it. -/
structure EntryReq where
  clientId : Option Nat
  category : Option String
  description : Option String
  date : Option Nat
  mealType : Option String
deriving DecidableEq, Repr

/-- Response of the create-entry route: `created` is the 201 insert path,
`okMerged` the 200 path that mutated an existing meals record. -/
inductive EntryResp
  | created (e : Entry)
  | okMerged (e : Entry)
  | badRequest (msg : String)
  | notFound (msg : String)
  | forbidden (msg : String)
deriving DecidableEq, Repr

/-- Store visible to the entry routes. -/
structure EntryDB where
  users : List User
  clients : List Client
  entries : List Entry
  nextEntryId : Nat
deriving DecidableEq, Repr

/-- Mongoose filter of the meals dedup lookup: same client, category `meals`,
`createdAt` within the day window of `entryDate`.  Note that no `mealType`
condition appears, mirroring the source query. -/
def mealsDayMatch (clientId entryDate : Nat) (e : Entry) : Bool :=
  decide (e.clientId = clientId ∧ e.category = Category.meals ∧
    startOfDayMs entryDate ≤ e.createdAt ∧ e.createdAt ≤ endOfDayMs entryDate)

/-- Tail of the create-entry handler, entered once the validation, existence,
access and active checks have all passed: date processing, the meals per-day
merge, and the insert. -/
def postEntryChecked (db : EntryDB) (clientId : Nat) (category : Category)
    (description : String) (date : Option Nat) (now : Nat) :
    EntryDB × EntryResp :=
  match date with
  | some d =>
    let entryDate := d * dayMs
    match (if category = Category.meals then
            db.entries.find? (mealsDayMatch clientId entryDate)
          else none) with
    | some ex =>
      let ex2 := { ex with description := jsTrim description, createdAt := entryDate }
      ({ db with entries := db.entries.map (fun e => if e.id = ex.id then ex2 else e) },
       EntryResp.okMerged ex2)
    | none =>
      let e : Entry := { id := db.nextEntryId, clientId := clientId,
                         category := category, description := jsTrim description,
                         createdAt := entryDate }
      ({ db with entries := e :: db.entries, nextEntryId := db.nextEntryId + 1 },
       EntryResp.created e)
  | none =>
    let e : Entry := { id := db.nextEntryId, clientId := clientId,
                       category := category, description := jsTrim description,
                       createdAt := now }
    ({ db with entries := e :: db.entries, nextEntryId := db.nextEntryId + 1 },
     EntryResp.created e)

/-- Handler of `POST /api/entries` (entryRoutes.js).  `now` is the submission
time used when no date is supplied. -/
def postEntry (db : EntryDB) (actor : Actor) (req : EntryReq) (now : Nat) :
    EntryDB × EntryResp :=
  if req.clientId = none ∨ req.category = none ∨ req.description = none ∨
      req.description = some "" then
    (db, EntryResp.badRequest "clientId, category, and description are required")
  else
    let clientId := req.clientId.getD 0
    let description := req.description.getD ""
    match parseCategory (req.category.getD "") with
    | none => (db, EntryResp.badRequest "Invalid category")
    | some category =>
      if jsLength (jsTrim description) = 0 then
        (db, EntryResp.badRequest "Description cannot be empty")
      else if jsLength description > 5000 then
        (db, EntryResp.badRequest "Description must be less than 5000 characters")
      else
        match db.clients.find? (fun c => decide (c.id = clientId)) with
        | none => (db, EntryResp.notFound "Client not found")
        | some client =>
          if hasClientAccess db.users actor.id actor.role clientId = false then
            (db, EntryResp.forbidden "You do not have access to this client")
          else if client.isActive = false then
            (db, EntryResp.badRequest "Cannot create entry for inactive client")
          else
            postEntryChecked db clientId category description req.date now

/-- Bool test that `needle` is a contiguous run of `hay`. -/
def prefixChars (needle hay : List Char) : Bool :=
  match needle, hay with
  | [], _ => true
  | _ :: _, [] => false
  | a :: as, b :: bs => decide (a = b) && prefixChars as bs

/-- Substring occurrence test over character lists. -/
def infixChars (needle hay : List Char) : Bool :=
  match hay with
  | [] => needle.isEmpty
  | _ :: t => prefixChars needle hay || infixChars needle t

/-- Model of the `$regex ... $options: "i"` filter: case-insensitive substring
match (regex metacharacters in the search term are outside the model). -/
def containsIgnoreCase (hay needle : String) : Bool :=
  infixChars (needle.data.map Char.toLower) (hay.data.map Char.toLower)

/-- Query string of `GET /api/entries/client/:clientId`; absent and empty
query parameters are both `none` (empty strings are falsy in the source's
`if (category)` / `if (search)` / `if (startDate || endDate)` guards).
`startDate`/`endDate` are the pre-parsed `new Date(...)` timestamps. -/
structure ListEntriesQuery where
  category : Option String
  search : Option String
  startDate : Option Nat
  endDate : Option Nat
deriving DecidableEq, Repr

/-- Response of the list-entries route. -/
inductive ListEntriesResp
  | ok (entries : List Entry)
  | badRequest (msg : String)
  | notFound (msg : String)
  | forbidden (msg : String)
deriving DecidableEq, Repr

/-- Mongoose filter assembled by the list-entries handler. -/
def listEntriesFilter (clientId : Nat) (category : Option Category)
    (search : Option String) (gte lte : Option Nat) (e : Entry) : Bool :=
  decide (e.clientId = clientId) &&
  (match category with | some c => decide (e.category = c) | none => true) &&
  (match search with
   | some s => containsIgnoreCase e.description (jsTrim s)
   | none => true) &&
  (match gte with | some t => decide (t ≤ e.createdAt) | none => true) &&
  (match lte with | some t => decide (e.createdAt ≤ t) | none => true)

/-- Handler of `GET /api/entries/client/:clientId` (entryRoutes.js): existence
check, access check, filter validation, then the filtered query sorted newest
first. -/
def listEntries (db : EntryDB) (actor : Actor) (clientId : Nat)
    (q : ListEntriesQuery) : ListEntriesResp :=
  match db.clients.find? (fun c => decide (c.id = clientId)) with
  | none => ListEntriesResp.notFound "Client not found"
  | some _client =>
    if hasClientAccess db.users actor.id actor.role clientId = false then
      ListEntriesResp.forbidden "You do not have access to this client"
    else
      match (match q.category with
             | some s => (parseCategory s).map some
             | none => some none) with
      | none => ListEntriesResp.badRequest "Invalid category filter"
      | some category =>
        if (match q.search with
            | some s => decide (jsLength (jsTrim s) = 0)
            | none => false) then
          ListEntriesResp.badRequest "Search term cannot be empty"
        else
          let gte := q.startDate
          let lte := q.endDate.map endOfDayMs
          if (match gte, lte with
              | some a, some b => decide (a > b)
              | _, _ => false) then
            ListEntriesResp.badRequest "Start date must be before or equal to end date"
          else
            ListEntriesResp.ok
              ((db.entries.filter (listEntriesFilter clientId category q.search gte lte)).mergeSort
                (fun a b => decide (b.createdAt ≤ a.createdAt)))

/-- Card template document (`Card` model). -/
structure Card where
  id : Nat
  title : String
  fieldTitles : List String
  enabledFields : List Nat
  assignedClients : List Nat
  createdBy : Nat
deriving DecidableEq, Repr

/-- Card field entry document (`CardEntry` model).  `date` is the
documentation day the entry belongs to; `eventDate` stores the parsed local
midnight of the slot-10 event date. -/
structure CardEntry where
  id : Nat
  cardId : Nat
  clientId : Nat
  fieldIndex : Nat
  value : Option String
  date : Nat
  eventDate : Option Nat
  eventTime : Option String
  isLocked : Bool
  createdBy : Nat
deriving DecidableEq, Repr

/-- Body of `POST /api/card-entries`.  `fieldIndex` is an `Int` because the
route checks its numeric range itself; `date` and `eventDate` are pre-parsed
day indices (`none` also covers the falsy empty string, skipped by the
source's truthiness guards). -/
structure CardEntryReq where
  cardId : Option Nat
  clientId : Option Nat
  fieldIndex : Option Int
  value : Option String
  date : Option Nat
  eventDate : Option Nat
  eventTime : Option String
deriving DecidableEq, Repr

/-- Response of the card-entry routes: `created` is the 201 insert path,
`okUpdated` the 200 path that edited an existing row. -/
inductive CardEntryResp
  | created (e : CardEntry)
  | okUpdated (e : CardEntry)
  | badRequest (msg : String)
  | notFound (msg : String)
  | forbidden (msg : String)
deriving DecidableEq, Repr

/-- Store visible to the card and card-entry routes. -/
structure CardDB where
  users : List User
  clients : List Client
  cards : List Card
  cardEntries : List CardEntry
  nextCardEntryId : Nat
deriving DecidableEq, Repr

/-- Test of the `^([0-1][0-9]|2[0-3]):[0-5][0-9]$` time pattern. -/
def isValidEventTime (s : String) : Bool :=
  match s.data with
  | [h1, h2, c, m1, m2] =>
    (decide ((h1 = '0' ∨ h1 = '1') ∧ '0' ≤ h2 ∧ h2 ≤ '9') ||
     decide (h1 = '2' ∧ '0' ≤ h2 ∧ h2 ≤ '3')) &&
    decide (c = ':') &&
    decide ('0' ≤ m1 ∧ m1 ≤ '5' ∧ '0' ≤ m2 ∧ m2 ≤ '9')
  | _ => false

/-- Mongoose filter of the card-entry identity lookup: same card, client and
field slot, `date` within the day window of `entryDate`. -/
def cardEntryDayMatch (cardId clientId fieldIndex entryDate : Nat)
    (e : CardEntry) : Bool :=
  decide (e.cardId = cardId ∧ e.clientId = clientId ∧ e.fieldIndex = fieldIndex ∧
    startOfDayMs entryDate ≤ e.date ∧ e.date ≤ endOfDayMs entryDate)

/-- Edit applied by the resubmission branch of `POST /api/card-entries` to the
row found for the identity key: slot 10 overwrites only the supplied parts,
other slots overwrite the value; a non-admin actor re-locks the row. -/
def applyCardEntryUpdate (role : Role) (fieldIndex : Nat) (value : Option String)
    (parsedEventDate : Option Nat) (eventTime : Option String)
    (ex : CardEntry) : CardEntry :=
  let e1 :=
    if fieldIndex = 10 then
      let a := match parsedEventDate with
               | some d => { ex with eventDate := some d }
               | none => ex
      let b := match eventTime with
               | some t => if t ≠ "" then { a with eventTime := some (jsTrim t) } else a
               | none => a
      match value with
      | some v => if v ≠ "" then { b with value := some (jsTrim v) } else b
      | none => b
    else
      { ex with value := some (jsTrim (value.getD "")) }
  if role ≠ Role.admin then { e1 with isLocked := true } else e1

/-- Entry document built by the create branch of `POST /api/card-entries`:
locked iff the creator is not an admin; slot 10 stores only the supplied
parts. -/
def mkCardEntry (db : CardDB) (actor : Actor) (cardId clientId fieldIndex : Nat)
    (value : Option String) (entryDate : Nat) (parsedEventDate : Option Nat)
    (eventTime : Option String) : CardEntry :=
  let base : CardEntry :=
    { id := db.nextCardEntryId, cardId := cardId, clientId := clientId,
      fieldIndex := fieldIndex, value := none, date := entryDate,
      eventDate := none, eventTime := none,
      isLocked := decide (actor.role ≠ Role.admin), createdBy := actor.id }
  if fieldIndex = 10 then
    let a := match parsedEventDate with
             | some d => { base with eventDate := some d }
             | none => base
    let b := match eventTime with
             | some t => if t ≠ "" then { a with eventTime := some (jsTrim t) } else a
             | none => a
    match value with
    | some v => if v ≠ "" then { b with value := some (jsTrim v) } else b
    | none => b
  else
    { base with value := some (jsTrim (value.getD "")) }

/-- Tail of the card-entry create handler, entered once every validation,
existence, assignment, access and active check has passed: the day-window
identity lookup, then the locked/edit branch or the insert branch. -/
def postCardEntryChecked (db : CardDB) (actor : Actor)
    (cardId clientId fieldIndex : Nat) (value : Option String)
    (parsedEventDate : Option Nat) (eventTime : Option String)
    (entryDate : Nat) : CardDB × CardEntryResp :=
  match db.cardEntries.find? (cardEntryDayMatch cardId clientId fieldIndex entryDate) with
  | some ex =>
    if ex.isLocked = true ∧ actor.role ≠ Role.admin then
      (db, CardEntryResp.forbidden
        "This field is locked and can only be edited by an administrator")
    else
      let ex2 := applyCardEntryUpdate actor.role fieldIndex value parsedEventDate eventTime ex
      ({ db with cardEntries := db.cardEntries.map (fun e => if e.id = ex.id then ex2 else e) },
       CardEntryResp.okUpdated ex2)
  | none =>
    let e := mkCardEntry db actor cardId clientId fieldIndex value entryDate
      parsedEventDate eventTime
    ({ db with cardEntries := e :: db.cardEntries,
               nextCardEntryId := db.nextCardEntryId + 1 },
     CardEntryResp.created e)

/-- Handler of `POST /api/card-entries` (cardEntryRoutes).  `now` is the
submission time used when no documentation date is supplied. -/
def postCardEntry (db : CardDB) (actor : Actor) (req : CardEntryReq)
    (now : Nat) : CardDB × CardEntryResp :=
  if req.cardId = none ∨ req.clientId = none ∨ req.fieldIndex = none then
    (db, CardEntryResp.badRequest "cardId, clientId, and fieldIndex are required")
  else
    let fi := req.fieldIndex.getD 0
    if fi ≠ 10 ∧ (req.value = none ∨ req.value = some "") then
      (db, CardEntryResp.badRequest "value is required for fields 0-9")
    else if fi < 0 ∨ fi > 10 then
      (db, CardEntryResp.badRequest "fieldIndex must be a number between 0 and 10")
    else
      let fieldIndex := fi.toNat
      if fieldIndex ≠ 10 ∧ jsLength (jsTrim (req.value.getD "")) = 0 then
        (db, CardEntryResp.badRequest "Value cannot be empty")
      else if fieldIndex ≠ 10 ∧ jsLength (req.value.getD "") > 5000 then
        (db, CardEntryResp.badRequest "Value must be less than 5000 characters")
      else
        let parsedEventDate :=
          if fieldIndex = 10 then req.eventDate.map (fun d => d * dayMs) else none
        if (match req.eventTime with
            | some t => decide (fieldIndex = 10 ∧ t ≠ "" ∧ isValidEventTime t = false)
            | none => false) then
          (db, CardEntryResp.badRequest "eventTime must be in HH:MM format")
        else
          match db.cards.find? (fun c => decide (c.id = req.cardId.getD 0)) with
          | none => (db, CardEntryResp.notFound "Card not found")
          | some card =>
            match db.clients.find? (fun c => decide (c.id = req.clientId.getD 0)) with
            | none => (db, CardEntryResp.notFound "Client not found")
            | some client =>
              if card.assignedClients.contains (req.clientId.getD 0) = false then
                (db, CardEntryResp.badRequest "Card is not assigned to this client")
              else if hasClientAccess db.users actor.id actor.role
                  (req.clientId.getD 0) = false then
                (db, CardEntryResp.forbidden "You do not have access to this client")
              else if client.isActive = false then
                (db, CardEntryResp.badRequest "Cannot create entry for inactive client")
              else
                let entryDate := match req.date with
                                 | some d => d * dayMs
                                 | none => now
                postCardEntryChecked db actor (req.cardId.getD 0) (req.clientId.getD 0)
                  fieldIndex req.value parsedEventDate req.eventTime entryDate

/-- Body of `PUT /api/card-entries/:id`.  For `eventDate`/`eventTime` the
outer `Option` is presence in the body (`undefined` skips the field), the
inner one distinguishes a truthy parsed value from a falsy one, which the
handler stores as `null`. -/
structure CardEntryPutReq where
  value : Option String
  isLocked : Option Bool
  eventDate : Option (Option Nat)
  eventTime : Option (Option String)
deriving DecidableEq, Repr

/-- Validation applied by the PUT handler to a supplied `value`: slot 10
accepts anything, other slots reject blank or over-long values. -/
def putValueError (entry : CardEntry) (value : Option String) : Option String :=
  match value with
  | some v =>
    if entry.fieldIndex = 10 then none
    else if jsLength (jsTrim v) = 0 then some "Value cannot be empty"
    else if jsLength v > 5000 then some "Value must be less than 5000 characters"
    else none
  | none => none

/-- Validation applied by the PUT handler to a supplied truthy `eventTime` on
a slot-10 row. -/
def putEventTimeError (entry : CardEntry) (eventTime : Option (Option String)) :
    Option String :=
  match eventTime with
  | some (some t) =>
    if entry.fieldIndex = 10 ∧ isValidEventTime t = false then
      some "eventTime must be in HH:MM format"
    else none
  | _ => none

/-- The `updateData` document the PUT handler builds and applies: value for
the row's slot kind, slot-10 event fields set or cleared, and a direct
`isLocked` write. -/
def applyPutUpdate (entry : CardEntry) (req : CardEntryPutReq) : CardEntry :=
  let a := match req.value with
    | some v =>
      if entry.fieldIndex = 10 then
        (if v ≠ "" ∧ jsLength (jsTrim v) > 0 then { entry with value := some (jsTrim v) }
         else entry)
      else { entry with value := some (jsTrim v) }
    | none => entry
  let b := match req.eventDate with
    | some (some d) => if entry.fieldIndex = 10 then { a with eventDate := some (d * dayMs) } else a
    | some none => if entry.fieldIndex = 10 then { a with eventDate := none } else a
    | none => a
  let c := match req.eventTime with
    | some (some t) => if entry.fieldIndex = 10 then { b with eventTime := some (jsTrim t) } else b
    | some none => if entry.fieldIndex = 10 then { b with eventTime := none } else b
    | none => b
  match req.isLocked with
  | some l => { c with isLocked := l }
  | none => c

/-- Handler of `PUT /api/card-entries/:id` (admin only, guarded by the
`requireAdmin` middleware): the explicit unlock/lock call, which can also
overwrite the value and slot-10 event fields.  The `isLocked must be a
boolean` check is enforced by the `Option Bool` type of the request. -/
def putCardEntry (db : CardDB) (actor : Actor) (id : Nat)
    (req : CardEntryPutReq) : CardDB × CardEntryResp :=
  if actor.role ≠ Role.admin then
    (db, CardEntryResp.forbidden "Admin access only")
  else
    match db.cardEntries.find? (fun e => decide (e.id = id)) with
    | none => (db, CardEntryResp.notFound "Entry not found")
    | some entry =>
      if hasClientAccess db.users actor.id actor.role entry.clientId = false then
        (db, CardEntryResp.forbidden "You do not have access to this entry")
      else
        match putValueError entry req.value with
        | some m => (db, CardEntryResp.badRequest m)
        | none =>
          match putEventTimeError entry req.eventTime with
          | some m => (db, CardEntryResp.badRequest m)
          | none =>
            let e2 := applyPutUpdate entry req
            ({ db with cardEntries := db.cardEntries.map (fun e => if e.id = entry.id then e2 else e) },
             CardEntryResp.okUpdated e2)

/-- Response of the card template read route. -/
inductive CardResp
  | ok (c : Card)
  | notFound (msg : String)
  | forbidden (msg : String)
deriving DecidableEq, Repr

/-- Handler of `GET /api/cards/:id` (cardRoutes.js).  Its middleware chain is
`auth` alone, so the authenticated actor is a parameter but the handler body
performs no role or assignment check. -/
def getCardById (cards : List Card) (actor : Actor) (cardId : Nat) : CardResp :=
  match cards.find? (fun c => decide (c.id = cardId)) with
  | none => CardResp.notFound "Card not found"
  | some card => CardResp.ok card

/-- Cascade of `DELETE /api/cards/:id`: `CardEntry.deleteMany({ cardId })`
keeps exactly the entries of other cards. -/
def deleteCardEntriesFor (entries : List CardEntry) (cardId : Nat) :
    List CardEntry :=
  entries.filter (fun e => decide (e.cardId ≠ cardId))

/-- Membership test in the `["staff", "admin"]` role list, phrased as a parse
of the raw role string. -/
def parseRole (s : String) : Option Role :=
  if s = "staff" then some Role.staff
  else if s = "admin" then some Role.admin
  else none

/-- Response of the user administration routes. -/
inductive UserResp
  | ok (u : User)
  | badRequest (msg : String)
  | notFound (msg : String)
deriving DecidableEq, Repr

/-- Role/assignment update a role-change call applies to the target user:
the new role, and a cleared assignment list when the call promotes a
non-admin to admin. -/
def applyRoleUpdate (role : Role) (oldRole : Role) (u : User) : User :=
  { u with role := role,
           assignedClients :=
             if role = Role.admin ∧ oldRole ≠ Role.admin then []
             else u.assignedClients }

/-- Handler of `PATCH /api/users/:id/role` (userController.updateUserRole):
validates the role, rejects self-role-change, and clears `assignedClients`
when promoting a non-admin to admin. -/
def updateUserRole (users : List User) (actorId targetId : Nat)
    (roleStr : String) : List User × UserResp :=
  match parseRole roleStr with
  | none => (users, UserResp.badRequest "Invalid role. Must be staff or admin")
  | some role =>
    if actorId = targetId then
      (users, UserResp.badRequest "You cannot change your own role")
    else
      match users.find? (fun u => decide (u.id = targetId)) with
      | none => (users, UserResp.notFound "User not found")
      | some user =>
        let users2 := users.map (fun u =>
          if u.id = targetId then applyRoleUpdate role user.role u else u)
        (users2, UserResp.ok (applyRoleUpdate role user.role user))

/-- Shape of a caught JavaScript error as far as errorHandler.js inspects it:
`name`, the Mongo error `code`, an optional custom `status`, the `message`
(possibly empty, which is falsy), Mongoose validation sub-messages, the keys
of `keyPattern` for duplicate-key errors, and `path`/`value` for cast
errors. -/
structure JsError where
  name : String
  code : Option Nat
  status : Option Nat
  message : String
  validationMessages : List String
  keyPatternFields : List String
  path : String
  value : String
deriving DecidableEq, Repr

/-- Formatted error response: HTTP status, human message, and the optional
validation message list. -/
structure ErrResponse where
  status : Nat
  message : String
  errors : Option (List String)
deriving DecidableEq, Repr

/-- Translation of Mongoose validation errors (errorHandler.js). -/
def handleValidationError (err : JsError) : Option ErrResponse :=
  if err.name = "ValidationError" then
    some { status := 400, message := "Validation error",
           errors := some err.validationMessages }
  else none

/-- Translation of Mongo duplicate-key errors (code 11000): status 400 and a
message naming the first indexed field. -/
def handleDuplicateKeyError (err : JsError) : Option ErrResponse :=
  if err.code = some 11000 then
    some { status := 400,
           message := err.keyPatternFields.headD "undefined" ++ " already exists",
           errors := none }
  else none

/-- Translation of Mongoose cast errors. -/
def handleCastError (err : JsError) : Option ErrResponse :=
  if err.name = "CastError" then
    some { status := 400,
           message := "Invalid " ++ err.path ++ ": " ++ err.value,
           errors := none }
  else none

/-- Uniform error formatter (errorHandler.formatErrorResponse): validation,
then duplicate key, then cast error, else the error's own status (default
500) and message (default message when the error message is falsy). -/
def formatErrorResponse (err : JsError) (defaultMessage : String) : ErrResponse :=
  match handleValidationError err with
  | some r => r
  | none =>
    match handleDuplicateKeyError err with
    | some r => r
    | none =>
      match handleCastError err with
      | some r => r
      | none =>
        { status := err.status.getD 500,
          message := if err.message ≠ "" then err.message else defaultMessage,
          errors := none }

/-- Identity-key relation of the card field ledger: same card, client, field
slot and effective day (the day index of the stored `date`). -/
def SameKeyDay (a b : CardEntry) : Prop :=
  a.cardId = b.cardId ∧ a.clientId = b.clientId ∧ a.fieldIndex = b.fieldIndex ∧
  dayOf a.date = dayOf b.date

instance : DecidablePred fun p : CardEntry × CardEntry => SameKeyDay p.1 p.2 :=
  fun _ => by unfold SameKeyDay; infer_instance

/-- At most one card field entry per identity key. -/
def KeyDayUnique (l : List CardEntry) : Prop :=
  List.Pairwise (fun a b => ¬ SameKeyDay a b) l

/-- Well-formedness of stored ids: pairwise distinct and below the next free
id, which is what backs the in-place-save-by-id model. -/
def EntryIdsOk (l : List CardEntry) (next : Nat) : Prop :=
  List.Pairwise (fun a b => a.id ≠ b.id) l ∧ ∀ e ∈ l, e.id < next

/-- Full invariant of the card field ledger. -/
def CardInv (db : CardDB) : Prop :=
  KeyDayUnique db.cardEntries ∧ EntryIdsOk db.cardEntries db.nextCardEntryId

/-- States of the card field ledger reachable from an empty entry store
through the operations that touch the `CardEntry` collection: the create
route, the admin-only PUT route, the delete-card cascade, and arbitrary
changes to the other collections by the remaining routes. -/
inductive CardReach : CardDB → Prop
  | init (db : CardDB) (h : db.cardEntries = []) : CardReach db
  | create (db : CardDB) (actor : Actor) (req : CardEntryReq) (now : Nat) :
      CardReach db → CardReach (postCardEntry db actor req now).1
  | adminEdit (db : CardDB) (actor : Actor) (id : Nat) (req : CardEntryPutReq) :
      CardReach db → CardReach (putCardEntry db actor id req).1
  | cascade (db : CardDB) (cardId : Nat) :
      CardReach db →
      CardReach { db with cardEntries := deleteCardEntriesFor db.cardEntries cardId }
  | env (db : CardDB) (cards : List Card) (clients : List Client)
      (users : List User) :
      CardReach db →
      CardReach { db with cards := cards, clients := clients, users := users }

theorem day_window_iff (t x : Nat) :
    (startOfDayMs t ≤ x ∧ x ≤ endOfDayMs t) ↔ dayOf x = dayOf t := by
  simp only [startOfDayMs, endOfDayMs, dayOf, dayMs]
  omega

theorem cardEntryDayMatch_iff (cardId clientId fieldIndex entryDate : Nat)
    (e : CardEntry) :
    cardEntryDayMatch cardId clientId fieldIndex entryDate e = true ↔
      (e.cardId = cardId ∧ e.clientId = clientId ∧ e.fieldIndex = fieldIndex ∧
       dayOf e.date = dayOf entryDate) := by
  unfold cardEntryDayMatch
  rw [decide_eq_true_eq]
  constructor
  · rintro ⟨h1, h2, h3, h4, h5⟩
    exact ⟨h1, h2, h3, (day_window_iff entryDate e.date).mp ⟨h4, h5⟩⟩
  · rintro ⟨h1, h2, h3, h4⟩
    obtain ⟨h5, h6⟩ := (day_window_iff entryDate e.date).mpr h4
    exact ⟨h1, h2, h3, h5, h6⟩

theorem applyCardEntryUpdate_keys (role : Role) (fieldIndex : Nat)
    (value : Option String) (parsedEventDate : Option Nat)
    (eventTime : Option String) (ex : CardEntry) :
    (applyCardEntryUpdate role fieldIndex value parsedEventDate eventTime ex).cardId = ex.cardId ∧
    (applyCardEntryUpdate role fieldIndex value parsedEventDate eventTime ex).clientId = ex.clientId ∧
    (applyCardEntryUpdate role fieldIndex value parsedEventDate eventTime ex).fieldIndex = ex.fieldIndex ∧
    (applyCardEntryUpdate role fieldIndex value parsedEventDate eventTime ex).date = ex.date ∧
    (applyCardEntryUpdate role fieldIndex value parsedEventDate eventTime ex).id = ex.id := by
  unfold applyCardEntryUpdate
  dsimp only
  repeat' split
  all_goals simp

theorem applyPutUpdate_keys (entry : CardEntry) (req : CardEntryPutReq) :
    (applyPutUpdate entry req).cardId = entry.cardId ∧
    (applyPutUpdate entry req).clientId = entry.clientId ∧
    (applyPutUpdate entry req).fieldIndex = entry.fieldIndex ∧
    (applyPutUpdate entry req).date = entry.date ∧
    (applyPutUpdate entry req).id = entry.id := by
  unfold applyPutUpdate
  dsimp only
  repeat' split
  all_goals simp

theorem mkCardEntry_keys (db : CardDB) (actor : Actor)
    (cardId clientId fieldIndex : Nat) (value : Option String)
    (entryDate : Nat) (parsedEventDate : Option Nat) (eventTime : Option String) :
    (mkCardEntry db actor cardId clientId fieldIndex value entryDate parsedEventDate eventTime).cardId = cardId ∧
    (mkCardEntry db actor cardId clientId fieldIndex value entryDate parsedEventDate eventTime).clientId = clientId ∧
    (mkCardEntry db actor cardId clientId fieldIndex value entryDate parsedEventDate eventTime).fieldIndex = fieldIndex ∧
    (mkCardEntry db actor cardId clientId fieldIndex value entryDate parsedEventDate eventTime).date = entryDate ∧
    (mkCardEntry db actor cardId clientId fieldIndex value entryDate parsedEventDate eventTime).id = db.nextCardEntryId ∧
    (mkCardEntry db actor cardId clientId fieldIndex value entryDate parsedEventDate eventTime).isLocked = decide (actor.role ≠ Role.admin) := by
  unfold mkCardEntry
  dsimp only
  repeat' split
  all_goals simp

theorem eq_of_mem_of_id_eq {l : List CardEntry} {a b : CardEntry}
    (hids : List.Pairwise (fun x y => x.id ≠ y.id) l)
    (ha : a ∈ l) (hb : b ∈ l) (h : a.id = b.id) : a = b := by
  induction l with
  | nil => cases ha
  | cons x xs ih =>
    obtain ⟨hx, hxs⟩ := List.pairwise_cons.mp hids
    rcases List.mem_cons.mp ha with rfl | ha' <;>
      rcases List.mem_cons.mp hb with rfl | hb'
    · rfl
    · exact absurd h (hx b hb')
    · exact absurd h.symm (hx a ha')
    · exact ih hxs ha' hb'

theorem keyDayUnique_map_replace {l : List CardEntry} {f : CardEntry → CardEntry}
    (hf : ∀ e ∈ l, (f e).cardId = e.cardId ∧ (f e).clientId = e.clientId ∧
      (f e).fieldIndex = e.fieldIndex ∧ (f e).date = e.date)
    (h : KeyDayUnique l) : KeyDayUnique (l.map f) := by
  unfold KeyDayUnique at *
  rw [List.pairwise_map]
  refine h.imp_of_mem ?_
  intro a b ha hb hr hcontra
  obtain ⟨a1, a2, a3, a4⟩ := hf a ha
  obtain ⟨b1, b2, b3, b4⟩ := hf b hb
  obtain ⟨c1, c2, c3, c4⟩ := hcontra
  exact hr ⟨a1 ▸ b1 ▸ c1, a2 ▸ b2 ▸ c2, a3 ▸ b3 ▸ c3, by
    rw [a4, b4] at c4; exact c4⟩

theorem entryIdsOk_map_replace {l : List CardEntry} {next : Nat}
    {f : CardEntry → CardEntry} (hf : ∀ e ∈ l, (f e).id = e.id)
    (h : EntryIdsOk l next) : EntryIdsOk (l.map f) next := by
  obtain ⟨hp, hb⟩ := h
  constructor
  · rw [List.pairwise_map]
    refine hp.imp_of_mem ?_
    intro a b ha hb' hr
    rw [hf a ha, hf b hb']
    exact hr
  · intro e' he'
    obtain ⟨e, he, rfl⟩ := List.mem_map.mp he'
    rw [hf e he]
    exact hb e he

theorem postCardEntryChecked_inv (db : CardDB) (actor : Actor)
    (cardId clientId fieldIndex : Nat) (value : Option String)
    (parsedEventDate : Option Nat) (eventTime : Option String) (entryDate : Nat)
    (h : CardInv db) :
    CardInv (postCardEntryChecked db actor cardId clientId fieldIndex value
      parsedEventDate eventTime entryDate).1 := by
  have hk := h.1
  have hp := h.2.1
  have hb := h.2.2
  unfold postCardEntryChecked
  cases hfind : db.cardEntries.find?
      (cardEntryDayMatch cardId clientId fieldIndex entryDate) with
  | none =>
    dsimp only
    obtain ⟨k1, k2, k3, k4, k5, _⟩ := mkCardEntry_keys db actor cardId clientId
      fieldIndex value entryDate parsedEventDate eventTime
    refine ⟨?_, ?_, ?_⟩
    · unfold KeyDayUnique at *
      rw [List.pairwise_cons]
      refine ⟨?_, hk⟩
      intro e he hsame
      obtain ⟨s1, s2, s3, s4⟩ := hsame
      have hall := List.find?_eq_none.mp hfind e he
      apply hall
      rw [cardEntryDayMatch_iff]
      exact ⟨by rw [← s1, k1], by rw [← s2, k2], by rw [← s3, k3],
             by rw [← s4, k4]⟩
    · rw [List.pairwise_cons]
      refine ⟨?_, hp⟩
      intro e he
      rw [k5]
      exact Nat.ne_of_gt (hb e he)
    · intro e he
      rcases List.mem_cons.mp he with rfl | he'
      · rw [k5]; exact Nat.lt_succ_self _
      · exact Nat.lt_succ_of_lt (hb e he')
  | some ex =>
    dsimp only
    split
    · exact ⟨hk, hp, hb⟩
    · have hmem := List.mem_of_find?_eq_some hfind
      obtain ⟨u1, u2, u3, u4, u5⟩ := applyCardEntryUpdate_keys actor.role
        fieldIndex value parsedEventDate eventTime ex
      have hfkeys : ∀ e ∈ db.cardEntries,
          ((fun e => if e.id = ex.id then
              applyCardEntryUpdate actor.role fieldIndex value parsedEventDate
                eventTime ex else e) e).cardId = e.cardId ∧
          ((fun e => if e.id = ex.id then
              applyCardEntryUpdate actor.role fieldIndex value parsedEventDate
                eventTime ex else e) e).clientId = e.clientId ∧
          ((fun e => if e.id = ex.id then
              applyCardEntryUpdate actor.role fieldIndex value parsedEventDate
                eventTime ex else e) e).fieldIndex = e.fieldIndex ∧
          ((fun e => if e.id = ex.id then
              applyCardEntryUpdate actor.role fieldIndex value parsedEventDate
                eventTime ex else e) e).date = e.date := by
        intro e he
        by_cases hcase : e.id = ex.id
        · have hee : e = ex := eq_of_mem_of_id_eq hp he hmem hcase
          subst hee
          simp only [if_pos hcase]
          exact ⟨u1, u2, u3, u4⟩
        · simp [hcase]
      have hfid : ∀ e ∈ db.cardEntries,
          ((fun e => if e.id = ex.id then
              applyCardEntryUpdate actor.role fieldIndex value parsedEventDate
                eventTime ex else e) e).id = e.id := by
        intro e he
        by_cases hcase : e.id = ex.id
        · have hee : e = ex := eq_of_mem_of_id_eq hp he hmem hcase
          subst hee
          simp only [if_pos hcase]
          exact u5
        · simp [hcase]
      exact ⟨keyDayUnique_map_replace hfkeys hk,
             (entryIdsOk_map_replace hfid ⟨hp, hb⟩).1,
             (entryIdsOk_map_replace hfid ⟨hp, hb⟩).2⟩

theorem postCardEntry_inv (db : CardDB) (actor : Actor) (req : CardEntryReq)
    (now : Nat) (h : CardInv db) :
    CardInv (postCardEntry db actor req now).1 := by
  unfold postCardEntry
  dsimp only
  repeat' split
  all_goals first
    | exact h
    | exact postCardEntryChecked_inv _ _ _ _ _ _ _ _ _ h

theorem putCardEntry_inv (db : CardDB) (actor : Actor) (id : Nat)
    (req : CardEntryPutReq) (h : CardInv db) :
    CardInv (putCardEntry db actor id req).1 := by
  have hk := h.1
  have hp := h.2.1
  have hb := h.2.2
  unfold putCardEntry
  split
  · exact h
  · cases hfind : db.cardEntries.find? (fun e => decide (e.id = id)) with
    | none => exact h
    | some entry =>
      dsimp only
      split
      · exact h
      · split
        · exact h
        · split
          · exact h
          · have hmem := List.mem_of_find?_eq_some hfind
            obtain ⟨u1, u2, u3, u4, u5⟩ := applyPutUpdate_keys entry req
            have hfkeys : ∀ e ∈ db.cardEntries,
                ((fun e => if e.id = entry.id then applyPutUpdate entry req else e) e).cardId = e.cardId ∧
                ((fun e => if e.id = entry.id then applyPutUpdate entry req else e) e).clientId = e.clientId ∧
                ((fun e => if e.id = entry.id then applyPutUpdate entry req else e) e).fieldIndex = e.fieldIndex ∧
                ((fun e => if e.id = entry.id then applyPutUpdate entry req else e) e).date = e.date := by
              intro e he
              by_cases hcase : e.id = entry.id
              · have hee : e = entry := eq_of_mem_of_id_eq hp he hmem hcase
                subst hee
                simp only [if_pos hcase]
                exact ⟨u1, u2, u3, u4⟩
              · simp [hcase]
            have hfid : ∀ e ∈ db.cardEntries,
                ((fun e => if e.id = entry.id then applyPutUpdate entry req else e) e).id = e.id := by
              intro e he
              by_cases hcase : e.id = entry.id
              · have hee : e = entry := eq_of_mem_of_id_eq hp he hmem hcase
                subst hee
                simp only [if_pos hcase]
                exact u5
              · simp [hcase]
            exact ⟨keyDayUnique_map_replace hfkeys hk,
                   (entryIdsOk_map_replace hfid ⟨hp, hb⟩).1,
                   (entryIdsOk_map_replace hfid ⟨hp, hb⟩).2⟩

theorem deleteCardEntriesFor_inv (db : CardDB) (cardId : Nat) (h : CardInv db) :
    CardInv { db with cardEntries := deleteCardEntriesFor db.cardEntries cardId } := by
  have hk := h.1
  have hp := h.2.1
  have hb := h.2.2
  refine ⟨List.Pairwise.filter _ hk, List.Pairwise.filter _ hp, ?_⟩
  intro e he
  exact hb e (List.mem_of_mem_filter he)

theorem cardReach_inv (db : CardDB) (h : CardReach db) : CardInv db := by
  induction h with
  | init db h0 =>
    refine ⟨?_, ?_, ?_⟩ <;> rw [h0]
    · exact List.Pairwise.nil
    · exact List.Pairwise.nil
    · intro e he; cases he
  | create db actor req now _ ih => exact postCardEntry_inv db actor req now ih
  | adminEdit db actor id req _ ih => exact putCardEntry_inv db actor id req ih
  | cascade db cardId _ ih => exact deleteCardEntriesFor_inv db cardId ih
  | env db cards clients users _ ih => exact ih

theorem postEntry_core (db : EntryDB) (actor : Actor) (req : EntryReq)
    (now : Nat) (clientId : Nat) (catStr : String) (category : Category)
    (desc : String) (client : Client)
    (h1 : req.clientId = some clientId)
    (h2 : req.category = some catStr)
    (h3 : req.description = some desc)
    (hne : desc ≠ "")
    (hcat : parseCategory catStr = some category)
    (htrim : jsLength (jsTrim desc) ≠ 0)
    (hlen : jsLength desc ≤ 5000)
    (hclient : db.clients.find? (fun c => decide (c.id = clientId)) = some client)
    (haccess : hasClientAccess db.users actor.id actor.role clientId = true)
    (hactive : client.isActive = true) :
    postEntry db actor req now = postEntryChecked db clientId category desc req.date now := by
  unfold postEntry
  rw [h1, h2, h3]
  rw [if_neg (by simp [hne])]
  simp only [Option.getD_some]
  rw [hcat]
  dsimp only
  rw [if_neg htrim]
  rw [if_neg (by omega)]
  rw [hclient]
  dsimp only
  rw [if_neg (by simp [haccess])]
  rw [if_neg (by simp [hactive])]

/-- C1, counterexample.  The claim states that same-day meals create-requests
with mealType = snacks are never merged, so a second same-day snacks request
must insert a new row.  In the code the dedup query never mentions
`mealType` (the route does not even read it): here a request carrying
`mealType = "snacks"` whose date matches an existing meals record is merged
into it in place — the store still holds exactly one row, with the
description overwritten, and no snacks row was inserted.  The claim is also
refuted in its breakfast/lunch/dinner part, since this merge fires whatever
the meal types of the request and of the stored record are. -/
theorem c1_meals_snacks_merge_counterexample :
    postEntry
      { users := [{ id := 1, role := Role.admin, assignedClients := [] }],
        clients := [{ id := 5, name := "A", isActive := true }],
        entries := [{ id := 100, clientId := 5, category := Category.meals,
                      description := "oats", createdAt := 10 * dayMs }],
        nextEntryId := 101 }
      { id := 1, role := Role.admin }
      { clientId := some 5, category := some "meals",
        description := some "chips", date := some 10,
        mealType := some "snacks" }
      (10 * dayMs) =
    ({ users := [{ id := 1, role := Role.admin, assignedClients := [] }],
       clients := [{ id := 5, name := "A", isActive := true }],
       entries := [{ id := 100, clientId := 5, category := Category.meals,
                     description := "chips", createdAt := 10 * dayMs }],
       nextEntryId := 101 },
     EntryResp.okMerged { id := 100, clientId := 5, category := Category.meals,
                          description := "chips", createdAt := 10 * dayMs }) := by
  decide

/-- C1, amended.  For a create-entry request with category = meals and an
explicitly supplied date, if any meals record of the same client has its
effective day equal to that date then that record's description (and
effective date) is mutated in place and no new row is inserted — regardless
of the request's mealType, which the route never reads, so snacks requests
merge exactly like breakfast/lunch/dinner ones.  When no date is supplied
the handler never merges: it always inserts a new row, so the per-day
uniqueness only holds among explicitly dated submissions. -/
theorem c1_meals_daily_merge_amended :
    (∀ (db : EntryDB) (actor : Actor) (req : EntryReq) (now : Nat)
       (mt : Option String),
      postEntry db actor { req with mealType := mt } now =
        postEntry db actor req now) ∧
    (∀ (db : EntryDB) (actor : Actor) (req : EntryReq) (now clientId d : Nat)
       (desc : String) (client : Client) (ex : Entry),
      req.clientId = some clientId →
      req.category = some "meals" →
      req.description = some desc →
      desc ≠ "" →
      jsLength (jsTrim desc) ≠ 0 →
      jsLength desc ≤ 5000 →
      db.clients.find? (fun c => decide (c.id = clientId)) = some client →
      hasClientAccess db.users actor.id actor.role clientId = true →
      client.isActive = true →
      req.date = some d →
      db.entries.find? (mealsDayMatch clientId (d * dayMs)) = some ex →
      postEntry db actor req now =
        ({ db with entries := db.entries.map (fun e =>
             if e.id = ex.id then
               { ex with description := jsTrim desc, createdAt := d * dayMs }
             else e) },
         EntryResp.okMerged
           { ex with description := jsTrim desc, createdAt := d * dayMs }) ∧
      (postEntry db actor req now).1.entries.length = db.entries.length) ∧
    (∀ (db : EntryDB) (actor : Actor) (req : EntryReq) (now clientId : Nat)
       (catStr desc : String) (category : Category) (client : Client),
      req.clientId = some clientId →
      req.category = some catStr →
      req.description = some desc →
      desc ≠ "" →
      parseCategory catStr = some category →
      jsLength (jsTrim desc) ≠ 0 →
      jsLength desc ≤ 5000 →
      db.clients.find? (fun c => decide (c.id = clientId)) = some client →
      hasClientAccess db.users actor.id actor.role clientId = true →
      client.isActive = true →
      req.date = none →
      postEntry db actor req now =
        ({ db with
             entries := (⟨db.nextEntryId, clientId, category, jsTrim desc, now⟩ : Entry) :: db.entries,
             nextEntryId := db.nextEntryId + 1 },
         EntryResp.created
           ⟨db.nextEntryId, clientId, category, jsTrim desc, now⟩)) := by
  refine ⟨?_, ?_, ?_⟩
  · intro db actor req now mt
    cases req
    rfl
  · intro db actor req now clientId d desc client ex h1 h2 h3 hne htrim hlen
      hclient haccess hactive hdate hfind
    have hcore := postEntry_core db actor req now clientId "meals"
      Category.meals desc client h1 h2 h3 hne rfl htrim hlen hclient haccess
      hactive
    rw [hcore, hdate]
    unfold postEntryChecked
    dsimp only
    rw [if_pos rfl, hfind]
    exact ⟨rfl, by simp⟩
  · intro db actor req now clientId catStr desc category client h1 h2 h3 hne
      hcat htrim hlen hclient haccess hactive hdate
    have hcore := postEntry_core db actor req now clientId catStr category
      desc client h1 h2 h3 hne hcat htrim hlen hclient haccess hactive
    rw [hcore, hdate]
    rfl

/-- C1, witness.  The amended merge branch applied at a concrete store: a
dated lunch request merges into the day's existing breakfast record. -/
theorem c1_meals_daily_merge_amended_witness :
    postEntry
      { users := [{ id := 2, role := Role.staff, assignedClients := [7] }],
        clients := [{ id := 7, name := "B", isActive := true }],
        entries := [{ id := 40, clientId := 7, category := Category.meals,
                      description := "toast", createdAt := 20 * dayMs }],
        nextEntryId := 41 }
      { id := 2, role := Role.staff }
      { clientId := some 7, category := some "meals",
        description := some "soup", date := some 20,
        mealType := some "lunch" }
      (20 * dayMs) =
    ({ users := [{ id := 2, role := Role.staff, assignedClients := [7] }],
       clients := [{ id := 7, name := "B", isActive := true }],
       entries := [{ id := 40, clientId := 7, category := Category.meals,
                     description := "soup", createdAt := 20 * dayMs }],
       nextEntryId := 41 },
     EntryResp.okMerged { id := 40, clientId := 7, category := Category.meals,
                          description := "soup", createdAt := 20 * dayMs }) := by
  have h := c1_meals_daily_merge_amended.2.1
    { users := [{ id := 2, role := Role.staff, assignedClients := [7] }],
      clients := [{ id := 7, name := "B", isActive := true }],
      entries := [{ id := 40, clientId := 7, category := Category.meals,
                    description := "toast", createdAt := 20 * dayMs }],
      nextEntryId := 41 }
    { id := 2, role := Role.staff }
    { clientId := some 7, category := some "meals",
      description := some "soup", date := some 20,
      mealType := some "lunch" }
    (20 * dayMs) 7 20 "soup"
    { id := 7, name := "B", isActive := true }
    { id := 40, clientId := 7, category := Category.meals,
      description := "toast", createdAt := 20 * dayMs }
    rfl rfl rfl (by decide) (by decide) (by decide) (by decide) (by decide)
    rfl rfl (by decide)
  rw [h.1]
  decide

theorem postEntryChecked_ne_forbidden (db : EntryDB) (clientId : Nat)
    (category : Category) (desc : String) (date : Option Nat) (now : Nat)
    (msg : String) :
    (postEntryChecked db clientId category desc date now).2 ≠
      EntryResp.forbidden msg := by
  unfold postEntryChecked
  dsimp only
  repeat' split
  all_goals simp

/-- C8.  On the entry ledger's write path (create) and read path (list):
a client id that resolves to no client yields the not-found error before
access is evaluated; when the client exists, an admin actor can never
receive the forbidden error, a staff actor is denied with the distinct
forbidden error exactly when the client is outside their `assignedClients`
set, and is never denied when it is inside. -/
theorem c8_client_access_semantics :
    (∀ (db : EntryDB) (actor : Actor) (req : EntryReq) (now clientId : Nat)
       (catStr desc : String) (category : Category),
      req.clientId = some clientId →
      req.category = some catStr →
      req.description = some desc →
      desc ≠ "" →
      parseCategory catStr = some category →
      jsLength (jsTrim desc) ≠ 0 →
      jsLength desc ≤ 5000 →
      db.clients.find? (fun c => decide (c.id = clientId)) = none →
      postEntry db actor req now = (db, EntryResp.notFound "Client not found")) ∧
    (∀ (db : EntryDB) (actor : Actor) (req : EntryReq) (now : Nat),
      actor.role = Role.admin →
      ∀ msg, (postEntry db actor req now).2 ≠ EntryResp.forbidden msg) ∧
    (∀ (db : EntryDB) (actor : Actor) (req : EntryReq) (now clientId : Nat)
       (catStr desc : String) (category : Category) (client : Client) (u : User),
      req.clientId = some clientId →
      req.category = some catStr →
      req.description = some desc →
      desc ≠ "" →
      parseCategory catStr = some category →
      jsLength (jsTrim desc) ≠ 0 →
      jsLength desc ≤ 5000 →
      db.clients.find? (fun c => decide (c.id = clientId)) = some client →
      actor.role = Role.staff →
      db.users.find? (fun v => decide (v.id = actor.id)) = some u →
      ((u.assignedClients.contains clientId = false →
        postEntry db actor req now =
          (db, EntryResp.forbidden "You do not have access to this client")) ∧
       (u.assignedClients.contains clientId = true →
        ∀ msg, (postEntry db actor req now).2 ≠ EntryResp.forbidden msg))) ∧
    (∀ (db : EntryDB) (actor : Actor) (clientId : Nat) (q : ListEntriesQuery),
      db.clients.find? (fun c => decide (c.id = clientId)) = none →
      listEntries db actor clientId q = ListEntriesResp.notFound "Client not found") ∧
    (∀ (db : EntryDB) (actor : Actor) (clientId : Nat) (q : ListEntriesQuery)
       (client : Client),
      db.clients.find? (fun c => decide (c.id = clientId)) = some client →
      (actor.role = Role.admin →
        ∀ msg, listEntries db actor clientId q ≠ ListEntriesResp.forbidden msg) ∧
      (∀ u : User, actor.role = Role.staff →
        db.users.find? (fun v => decide (v.id = actor.id)) = some u →
        ((u.assignedClients.contains clientId = false →
          listEntries db actor clientId q =
            ListEntriesResp.forbidden "You do not have access to this client") ∧
         (u.assignedClients.contains clientId = true →
          ∀ msg, listEntries db actor clientId q ≠ ListEntriesResp.forbidden msg)))) := by
  refine ⟨?_, ?_, ?_, ?_, ?_⟩
  · intro db actor req now clientId catStr desc category h1 h2 h3 hne hcat
      htrim hlen hclient
    unfold postEntry
    rw [h1, h2, h3]
    rw [if_neg (by simp [hne])]
    simp only [Option.getD_some]
    rw [hcat]
    dsimp only
    rw [if_neg htrim]
    rw [if_neg (by omega)]
    rw [hclient]
  · intro db actor req now hadmin msg
    unfold postEntry
    dsimp only
    repeat' split
    all_goals first
      | exact postEntryChecked_ne_forbidden _ _ _ _ _ _ _
      | simp_all [hasClientAccess]
  · intro db actor req now clientId catStr desc category client u h1 h2 h3
      hne hcat htrim hlen hclient hstaff hu
    constructor
    · intro hnc
      have haccessF : hasClientAccess db.users actor.id actor.role clientId = false := by
        unfold hasClientAccess
        rw [hstaff, if_neg (by simp), hu]
        exact hnc
      unfold postEntry
      rw [h1, h2, h3]
      rw [if_neg (by simp [hne])]
      simp only [Option.getD_some]
      rw [hcat]
      dsimp only
      rw [if_neg htrim]
      rw [if_neg (by omega)]
      rw [hclient]
      dsimp only
      rw [haccessF, if_pos rfl]
    · intro hyc msg
      unfold postEntry
      dsimp only
      repeat' split
      all_goals first
        | exact postEntryChecked_ne_forbidden _ _ _ _ _ _ _
        | simp_all [hasClientAccess]
  · intro db actor clientId q hclient
    unfold listEntries
    rw [hclient]
  · intro db actor clientId q client hclient
    constructor
    · intro hadmin msg
      unfold listEntries
      dsimp only
      repeat' split
      all_goals simp_all [hasClientAccess]
    · intro u hstaff hu
      constructor
      · intro hnc
        have haccessF : hasClientAccess db.users actor.id actor.role clientId = false := by
          unfold hasClientAccess
          rw [hstaff, if_neg (by simp), hu]
          exact hnc
        unfold listEntries
        rw [hclient]
        dsimp only
        rw [haccessF, if_pos rfl]
      · intro hyc msg
        unfold listEntries
        dsimp only
        repeat' split
        all_goals simp_all [hasClientAccess]

/-- C8, witness.  The staff-forbidden branch applied at a concrete store: a
staff user assigned to client 3 lists entries of client 9 and receives the
forbidden error, while the same call on client 3 is not forbidden. -/
theorem c8_client_access_semantics_witness :
    listEntries
      { users := [{ id := 2, role := Role.staff, assignedClients := [3] }],
        clients := [{ id := 3, name := "X", isActive := true },
                    { id := 9, name := "Y", isActive := true }],
        entries := [], nextEntryId := 0 }
      { id := 2, role := Role.staff } 9
      { category := none, search := none, startDate := none, endDate := none } =
      ListEntriesResp.forbidden "You do not have access to this client" := by
  exact ((c8_client_access_semantics.2.2.2.2
    { users := [{ id := 2, role := Role.staff, assignedClients := [3] }],
      clients := [{ id := 3, name := "X", isActive := true },
                  { id := 9, name := "Y", isActive := true }],
      entries := [], nextEntryId := 0 }
    { id := 2, role := Role.staff } 9
    { category := none, search := none, startDate := none, endDate := none }
    { id := 9, name := "Y", isActive := true }
    (by decide)).2
    { id := 2, role := Role.staff, assignedClients := [3] }
    rfl (by decide)).1 (by decide)

theorem postCardEntry_core (db : CardDB) (actor : Actor) (req : CardEntryReq)
    (now : Nat) (cardId clientId : Nat) (fi : Int) (card : Card)
    (client : Client)
    (h1 : req.cardId = some cardId)
    (h2 : req.clientId = some clientId)
    (h3 : req.fieldIndex = some fi)
    (h4 : 0 ≤ fi)
    (h5 : fi ≤ 10)
    (hv : fi.toNat ≠ 10 → ∃ v, req.value = some v ∧ v ≠ "" ∧
      jsLength (jsTrim v) ≠ 0 ∧ jsLength v ≤ 5000)
    (ht : ∀ t, req.eventTime = some t → fi.toNat = 10 → t ≠ "" →
      isValidEventTime t = true)
    (hcard : db.cards.find? (fun c => decide (c.id = cardId)) = some card)
    (hclient : db.clients.find? (fun c => decide (c.id = clientId)) = some client)
    (hassigned : card.assignedClients.contains clientId = true)
    (haccess : hasClientAccess db.users actor.id actor.role clientId = true)
    (hactive : client.isActive = true) :
    postCardEntry db actor req now =
      postCardEntryChecked db actor cardId clientId fi.toNat req.value
        (if fi.toNat = 10 then req.eventDate.map (fun d => d * dayMs) else none)
        req.eventTime
        (match req.date with | some d => d * dayMs | none => now) := by
  have hfi10 : (fi = 10 ∧ fi.toNat = 10) ∨ (fi ≠ 10 ∧ fi.toNat ≠ 10) := by
    omega
  unfold postCardEntry
  rw [h1, h2, h3]
  rw [if_neg (by simp)]
  simp only [Option.getD_some]
  rw [if_neg (by
    rintro ⟨hne10, hbad⟩
    rcases hfi10 with ⟨rfl, _⟩ | ⟨_, hten⟩
    · exact hne10 rfl
    · obtain ⟨v, hveq, hvne, _, _⟩ := hv hten
      rw [hveq] at hbad
      rcases hbad with h | h
      · cases h
      · exact hvne (by injection h))]
  rw [if_neg (by omega)]
  rw [if_neg (by
    rintro ⟨hne10, htrim0⟩
    obtain ⟨v, hveq, _, htne, _⟩ := hv hne10
    rw [hveq] at htrim0
    exact htne htrim0)]
  rw [if_neg (by
    rintro ⟨hne10, hlong⟩
    obtain ⟨v, hveq, _, _, hle⟩ := hv hne10
    rw [hveq] at hlong
    simp only [Option.getD_some] at hlong
    omega)]
  rw [if_neg (by
    cases hev : req.eventTime with
    | none => simp
    | some t =>
      simp only [decide_eq_true_eq]
      rintro ⟨hten, htne, hbad⟩
      rw [ht t hev hten htne] at hbad
      cases hbad)]
  rw [hcard]
  dsimp only
  rw [hclient]
  dsimp only
  rw [if_neg (by rw [hassigned]; simp)]
  rw [if_neg (by rw [haccess]; simp)]
  rw [if_neg (by rw [hactive]; simp)]

theorem applyCardEntryUpdate_isLocked (role : Role) (fieldIndex : Nat)
    (value : Option String) (parsedEventDate : Option Nat)
    (eventTime : Option String) (ex : CardEntry) :
    (applyCardEntryUpdate role fieldIndex value parsedEventDate eventTime ex).isLocked =
      (if role ≠ Role.admin then true else ex.isLocked) := by
  unfold applyCardEntryUpdate
  dsimp only
  repeat' split
  all_goals simp

theorem applyCardEntryUpdate_value_ne10 (role : Role) (fieldIndex : Nat)
    (value : Option String) (parsedEventDate : Option Nat)
    (eventTime : Option String) (ex : CardEntry) (h : fieldIndex ≠ 10) :
    (applyCardEntryUpdate role fieldIndex value parsedEventDate eventTime ex).value =
      some (jsTrim (value.getD "")) := by
  unfold applyCardEntryUpdate
  dsimp only
  rw [if_neg h]
  split <;> simp

theorem applyCardEntryUpdate_eventDate10 (role : Role) (value : Option String)
    (dms : Nat) (eventTime : Option String) (ex : CardEntry) :
    (applyCardEntryUpdate role 10 value (some dms) eventTime ex).eventDate =
      some dms := by
  unfold applyCardEntryUpdate
  dsimp only
  repeat' split
  all_goals simp_all

theorem applyCardEntryUpdate_eventTime10 (role : Role) (value : Option String)
    (parsedEventDate : Option Nat) (t : String) (ex : CardEntry)
    (h : t ≠ "") :
    (applyCardEntryUpdate role 10 value parsedEventDate (some t) ex).eventTime =
      some (jsTrim t) := by
  unfold applyCardEntryUpdate
  dsimp only
  rw [if_pos rfl]
  repeat' split
  all_goals simp_all

theorem applyPutUpdate_isLocked_some (entry : CardEntry)
    (req : CardEntryPutReq) (b : Bool) (h : req.isLocked = some b) :
    (applyPutUpdate entry req).isLocked = b := by
  unfold applyPutUpdate
  dsimp only
  rw [h]

/-- C2.  First conjunct: at every state of the card-field ledger reachable
through its operations, no two stored entries share an identity key
(cardId, clientId, fieldIndex, effective day).  Second conjunct: a create
call whose identity key already has a row (the day-window lookup finds `ex`)
never grows the store, and whenever it succeeds the new store is exactly the
old one with `ex` replaced in place. -/
theorem c2_card_entry_identity_key :
    (∀ db : CardDB, CardReach db →
      List.Pairwise (fun a b => ¬ SameKeyDay a b) db.cardEntries) ∧
    (∀ (db : CardDB) (actor : Actor) (req : CardEntryReq)
       (now cardId clientId : Nat) (fi : Int) (card : Card) (client : Client)
       (ex : CardEntry),
      req.cardId = some cardId →
      req.clientId = some clientId →
      req.fieldIndex = some fi →
      0 ≤ fi →
      fi ≤ 10 →
      (fi.toNat ≠ 10 → ∃ v, req.value = some v ∧ v ≠ "" ∧
        jsLength (jsTrim v) ≠ 0 ∧ jsLength v ≤ 5000) →
      (∀ t, req.eventTime = some t → fi.toNat = 10 → t ≠ "" →
        isValidEventTime t = true) →
      db.cards.find? (fun c => decide (c.id = cardId)) = some card →
      db.clients.find? (fun c => decide (c.id = clientId)) = some client →
      card.assignedClients.contains clientId = true →
      hasClientAccess db.users actor.id actor.role clientId = true →
      client.isActive = true →
      db.cardEntries.find? (cardEntryDayMatch cardId clientId fi.toNat
        (match req.date with | some d => d * dayMs | none => now)) = some ex →
      (postCardEntry db actor req now).1.cardEntries.length =
        db.cardEntries.length ∧
      (∀ e2, (postCardEntry db actor req now).2 = CardEntryResp.okUpdated e2 →
        (postCardEntry db actor req now).1.cardEntries =
          db.cardEntries.map (fun e => if e.id = ex.id then e2 else e))) := by
  constructor
  · intro db h
    exact (cardReach_inv db h).1
  · intro db actor req now cardId clientId fi card client ex h1 h2 h3 h4 h5
      hv ht hcard hclient hassigned haccess hactive hfind
    have hcore := postCardEntry_core db actor req now cardId clientId fi card
      client h1 h2 h3 h4 h5 hv ht hcard hclient hassigned haccess hactive
    rw [hcore]
    unfold postCardEntryChecked
    rw [hfind]
    dsimp only
    split
    · exact ⟨rfl, by intro e2 he2; cases he2⟩
    · refine ⟨by simp, ?_⟩
      intro e2 he2
      have : applyCardEntryUpdate actor.role fi.toNat req.value
          (if fi.toNat = 10 then req.eventDate.map (fun d => d * dayMs) else none)
          req.eventTime ex = e2 := by injection he2
      rw [← this]

/-- C2, witness.  The second conjunct applied at a concrete store: a second
same-tuple create call leaves the store at one row. -/
theorem c2_card_entry_identity_key_witness :
    (postCardEntry
      { users := [{ id := 1, role := Role.admin, assignedClients := [] }],
        clients := [{ id := 7, name := "A", isActive := true }],
        cards := [{ id := 11, title := "K",
                    fieldTitles := [], enabledFields := [0, 1, 2, 3],
                    assignedClients := [7], createdBy := 1 }],
        cardEntries := [{ id := 0, cardId := 11, clientId := 7, fieldIndex := 3,
                          value := some "v1", date := 10 * dayMs,
                          eventDate := none, eventTime := none,
                          isLocked := false, createdBy := 1 }],
        nextCardEntryId := 1 }
      { id := 1, role := Role.admin }
      { cardId := some 11, clientId := some 7, fieldIndex := some 3,
        value := some "v2", date := some 10, eventDate := none,
        eventTime := none }
      0).1.cardEntries.length = 1 := by
  have h := (c2_card_entry_identity_key.2
    { users := [{ id := 1, role := Role.admin, assignedClients := [] }],
      clients := [{ id := 7, name := "A", isActive := true }],
      cards := [{ id := 11, title := "K",
                  fieldTitles := [], enabledFields := [0, 1, 2, 3],
                  assignedClients := [7], createdBy := 1 }],
      cardEntries := [{ id := 0, cardId := 11, clientId := 7, fieldIndex := 3,
                        value := some "v1", date := 10 * dayMs,
                        eventDate := none, eventTime := none,
                        isLocked := false, createdBy := 1 }],
      nextCardEntryId := 1 }
    { id := 1, role := Role.admin }
    { cardId := some 11, clientId := some 7, fieldIndex := some 3,
      value := some "v2", date := some 10, eventDate := none,
      eventTime := none }
    0 11 7 3
    { id := 11, title := "K", fieldTitles := [], enabledFields := [0, 1, 2, 3],
      assignedClients := [7], createdBy := 1 }
    { id := 7, name := "A", isActive := true }
    { id := 0, cardId := 11, clientId := 7, fieldIndex := 3,
      value := some "v1", date := 10 * dayMs, eventDate := none,
      eventTime := none, isLocked := false, createdBy := 1 }
    rfl rfl rfl (by decide) (by decide)
    (fun _ => ⟨"v2", rfl, by decide, by decide, by decide⟩)
    (fun t hteq => by cases hteq)
    (by decide) (by decide) (by decide) (by decide) (by decide) (by decide)).1
  rw [h]
  decide

/-- C3.  When a card-field create call inserts a new row (the day-window
lookup finds nothing), the stored entry is locked exactly when the acting
user is not an admin: staff-created rows start locked, admin-created rows
start unlocked. -/
theorem c3_create_lock_by_role :
    ∀ (db : CardDB) (actor : Actor) (req : CardEntryReq)
      (now cardId clientId : Nat) (fi : Int) (card : Card) (client : Client),
      req.cardId = some cardId →
      req.clientId = some clientId →
      req.fieldIndex = some fi →
      0 ≤ fi →
      fi ≤ 10 →
      (fi.toNat ≠ 10 → ∃ v, req.value = some v ∧ v ≠ "" ∧
        jsLength (jsTrim v) ≠ 0 ∧ jsLength v ≤ 5000) →
      (∀ t, req.eventTime = some t → fi.toNat = 10 → t ≠ "" →
        isValidEventTime t = true) →
      db.cards.find? (fun c => decide (c.id = cardId)) = some card →
      db.clients.find? (fun c => decide (c.id = clientId)) = some client →
      card.assignedClients.contains clientId = true →
      hasClientAccess db.users actor.id actor.role clientId = true →
      client.isActive = true →
      db.cardEntries.find? (cardEntryDayMatch cardId clientId fi.toNat
        (match req.date with | some d => d * dayMs | none => now)) = none →
      ∃ e : CardEntry,
        (postCardEntry db actor req now).1.cardEntries = e :: db.cardEntries ∧
        (postCardEntry db actor req now).2 = CardEntryResp.created e ∧
        (actor.role = Role.staff → e.isLocked = true) ∧
        (actor.role = Role.admin → e.isLocked = false) := by
  intro db actor req now cardId clientId fi card client h1 h2 h3 h4 h5 hv ht
    hcard hclient hassigned haccess hactive hfind
  have hcore := postCardEntry_core db actor req now cardId clientId fi card
    client h1 h2 h3 h4 h5 hv ht hcard hclient hassigned haccess hactive
  rw [hcore]
  unfold postCardEntryChecked
  rw [hfind]
  dsimp only
  refine ⟨_, rfl, rfl, ?_, ?_⟩
  · intro hstaff
    have := (mkCardEntry_keys db actor cardId clientId fi.toNat req.value
      (match req.date with | some d => d * dayMs | none => now)
      (if fi.toNat = 10 then req.eventDate.map (fun d => d * dayMs) else none)
      req.eventTime).2.2.2.2.2
    rw [this, hstaff]
    simp
  · intro hadmin
    have := (mkCardEntry_keys db actor cardId clientId fi.toNat req.value
      (match req.date with | some d => d * dayMs | none => now)
      (if fi.toNat = 10 then req.eventDate.map (fun d => d * dayMs) else none)
      req.eventTime).2.2.2.2.2
    rw [this, hadmin]
    simp

/-- C3, witness.  A staff creation at a concrete store: the freshly inserted
row is locked. -/
theorem c3_create_lock_by_role_witness :
    ∃ e : CardEntry,
      (postCardEntry
        { users := [{ id := 2, role := Role.staff, assignedClients := [7] }],
          clients := [{ id := 7, name := "A", isActive := true }],
          cards := [{ id := 11, title := "K", fieldTitles := [],
                      enabledFields := [0, 1, 2, 3], assignedClients := [7],
                      createdBy := 1 }],
          cardEntries := [], nextCardEntryId := 0 }
        { id := 2, role := Role.staff }
        { cardId := some 11, clientId := some 7, fieldIndex := some 3,
          value := some "v1", date := some 10, eventDate := none,
          eventTime := none }
        0).1.cardEntries = e :: [] ∧
      (postCardEntry
        { users := [{ id := 2, role := Role.staff, assignedClients := [7] }],
          clients := [{ id := 7, name := "A", isActive := true }],
          cards := [{ id := 11, title := "K", fieldTitles := [],
                      enabledFields := [0, 1, 2, 3], assignedClients := [7],
                      createdBy := 1 }],
          cardEntries := [], nextCardEntryId := 0 }
        { id := 2, role := Role.staff }
        { cardId := some 11, clientId := some 7, fieldIndex := some 3,
          value := some "v1", date := some 10, eventDate := none,
          eventTime := none }
        0).2 = CardEntryResp.created e ∧
      e.isLocked = true := by
  obtain ⟨e, hst, hresp, hlock, _⟩ := c3_create_lock_by_role
    { users := [{ id := 2, role := Role.staff, assignedClients := [7] }],
      clients := [{ id := 7, name := "A", isActive := true }],
      cards := [{ id := 11, title := "K", fieldTitles := [],
                  enabledFields := [0, 1, 2, 3], assignedClients := [7],
                  createdBy := 1 }],
      cardEntries := [], nextCardEntryId := 0 }
    { id := 2, role := Role.staff }
    { cardId := some 11, clientId := some 7, fieldIndex := some 3,
      value := some "v1", date := some 10, eventDate := none,
      eventTime := none }
    0 11 7 3
    { id := 11, title := "K", fieldTitles := [], enabledFields := [0, 1, 2, 3],
      assignedClients := [7], createdBy := 1 }
    { id := 7, name := "A", isActive := true }
    rfl rfl rfl (by decide) (by decide)
    (fun _ => ⟨"v1", rfl, by decide, by decide, by decide⟩)
    (fun t hteq => by cases hteq)
    (by decide) (by decide) (by decide) (by decide) (by decide) (by decide)
  exact ⟨e, hst, hresp, hlock rfl⟩

/-- C4.  On a create call whose identity key already has a row: a locked row
plus a non-admin actor yields the distinct locked error with the store
unchanged; otherwise the row is overwritten in place — the value for slots
0 to 9, the supplied event fields for slot 10 — and ends locked again unless
the actor is an admin, in which case its lock flag is left as it was.  The
admin PUT call with `isLocked = false` unlocks the row without requiring a
value, which is exactly what makes a subsequent staff resubmission succeed
and re-lock it, as the final concrete scenario replays end to end. -/
theorem c4_locked_row_update_semantics :
    (∀ (db : CardDB) (actor : Actor) (req : CardEntryReq)
       (now cardId clientId : Nat) (fi : Int) (card : Card) (client : Client)
       (ex : CardEntry),
      req.cardId = some cardId →
      req.clientId = some clientId →
      req.fieldIndex = some fi →
      0 ≤ fi →
      fi ≤ 10 →
      (fi.toNat ≠ 10 → ∃ v, req.value = some v ∧ v ≠ "" ∧
        jsLength (jsTrim v) ≠ 0 ∧ jsLength v ≤ 5000) →
      (∀ t, req.eventTime = some t → fi.toNat = 10 → t ≠ "" →
        isValidEventTime t = true) →
      db.cards.find? (fun c => decide (c.id = cardId)) = some card →
      db.clients.find? (fun c => decide (c.id = clientId)) = some client →
      card.assignedClients.contains clientId = true →
      hasClientAccess db.users actor.id actor.role clientId = true →
      client.isActive = true →
      db.cardEntries.find? (cardEntryDayMatch cardId clientId fi.toNat
        (match req.date with | some d => d * dayMs | none => now)) = some ex →
      ((ex.isLocked = true → actor.role ≠ Role.admin →
        postCardEntry db actor req now =
          (db, CardEntryResp.forbidden
            "This field is locked and can only be edited by an administrator")) ∧
       (¬(ex.isLocked = true ∧ actor.role ≠ Role.admin) →
        (let e2 := applyCardEntryUpdate actor.role fi.toNat req.value
          (if fi.toNat = 10 then req.eventDate.map (fun d => d * dayMs) else none)
          req.eventTime ex
         postCardEntry db actor req now =
           ({ db with cardEntries :=
                db.cardEntries.map (fun e => if e.id = ex.id then e2 else e) },
            CardEntryResp.okUpdated e2) ∧
         (actor.role ≠ Role.admin → e2.isLocked = true) ∧
         (actor.role = Role.admin → e2.isLocked = ex.isLocked) ∧
         (fi.toNat ≠ 10 → e2.value = some (jsTrim (req.value.getD ""))) ∧
         (fi.toNat = 10 → ∀ d, req.eventDate = some d →
           e2.eventDate = some (d * dayMs)) ∧
         (fi.toNat = 10 → ∀ t, req.eventTime = some t → t ≠ "" →
           e2.eventTime = some (jsTrim t)))))) ∧
    (∀ (db : CardDB) (actor : Actor) (id : Nat) (req : CardEntryPutReq)
       (entry : CardEntry),
      actor.role = Role.admin →
      db.cardEntries.find? (fun e => decide (e.id = id)) = some entry →
      putValueError entry req.value = none →
      putEventTimeError entry req.eventTime = none →
      req.isLocked = some false →
      putCardEntry db actor id req =
        ({ db with cardEntries :=
             db.cardEntries.map (fun e =>
               if e.id = entry.id then applyPutUpdate entry req else e) },
         CardEntryResp.okUpdated (applyPutUpdate entry req)) ∧
      (applyPutUpdate entry req).isLocked = false) ∧
    (let db0 : CardDB :=
       { users := [{ id := 1, role := Role.admin, assignedClients := [] },
                   { id := 2, role := Role.staff, assignedClients := [7] }],
         clients := [{ id := 7, name := "A", isActive := true }],
         cards := [{ id := 11, title := "K", fieldTitles := [],
                     enabledFields := [0, 1, 2, 3], assignedClients := [7],
                     createdBy := 1 }],
         cardEntries := [], nextCardEntryId := 0 }
     let staff : Actor := { id := 2, role := Role.staff }
     let admin : Actor := { id := 1, role := Role.admin }
     let rq1 : CardEntryReq :=
       { cardId := some 11, clientId := some 7, fieldIndex := some 3,
         value := some "v1", date := some 10, eventDate := none,
         eventTime := none }
     let rq2 : CardEntryReq :=
       { cardId := some 11, clientId := some 7, fieldIndex := some 3,
         value := some "v2", date := some 10, eventDate := none,
         eventTime := none }
     let unlock : CardEntryPutReq :=
       { value := none, isLocked := some false, eventDate := none,
         eventTime := none }
     let s1 := postCardEntry db0 staff rq1 0
     let s2 := postCardEntry s1.1 staff rq2 0
     let s3 := putCardEntry s2.1 admin 0 unlock
     let s4 := postCardEntry s3.1 staff rq2 0
     s1.2 = CardEntryResp.created
       { id := 0, cardId := 11, clientId := 7, fieldIndex := 3,
         value := some "v1", date := 10 * dayMs, eventDate := none,
         eventTime := none, isLocked := true, createdBy := 2 } ∧
     s2.2 = CardEntryResp.forbidden
       "This field is locked and can only be edited by an administrator" ∧
     s3.2 = CardEntryResp.okUpdated
       { id := 0, cardId := 11, clientId := 7, fieldIndex := 3,
         value := some "v1", date := 10 * dayMs, eventDate := none,
         eventTime := none, isLocked := false, createdBy := 2 } ∧
     s4.2 = CardEntryResp.okUpdated
       { id := 0, cardId := 11, clientId := 7, fieldIndex := 3,
         value := some "v2", date := 10 * dayMs, eventDate := none,
         eventTime := none, isLocked := true, createdBy := 2 }) := by
  refine ⟨?_, ?_, ?_⟩
  · intro db actor req now cardId clientId fi card client ex h1 h2 h3 h4 h5
      hv ht hcard hclient hassigned haccess hactive hfind
    have hcore := postCardEntry_core db actor req now cardId clientId fi card
      client h1 h2 h3 h4 h5 hv ht hcard hclient hassigned haccess hactive
    constructor
    · intro hlk hrole
      rw [hcore]
      unfold postCardEntryChecked
      rw [hfind]
      dsimp only
      rw [if_pos ⟨hlk, hrole⟩]
    · intro hnot
      rw [hcore]
      unfold postCardEntryChecked
      rw [hfind]
      dsimp only
      rw [if_neg hnot]
      refine ⟨rfl, ?_, ?_, ?_, ?_, ?_⟩
      · intro hrole
        rw [applyCardEntryUpdate_isLocked, if_pos hrole]
      · intro hrole
        rw [applyCardEntryUpdate_isLocked, if_neg (by simp [hrole])]
      · intro h10
        exact applyCardEntryUpdate_value_ne10 _ _ _ _ _ _ h10
      · intro h10 d hd
        rw [h10, hd]
        have hsome : (if (10 : Nat) = 10 then
            Option.map (fun d => d * dayMs) (some d) else none) =
            some (d * dayMs) := by simp
        rw [hsome]
        exact applyCardEntryUpdate_eventDate10 _ _ _ _ _
      · intro h10 t hteq htne
        rw [h10, hteq]
        exact applyCardEntryUpdate_eventTime10 _ _ _ _ _ htne
  · intro db actor id req entry hadmin hfind hval hev hlk
    have haccessT : hasClientAccess db.users actor.id actor.role
        entry.clientId = true := by
      unfold hasClientAccess
      rw [hadmin]
      simp
    unfold putCardEntry
    rw [if_neg (by simp [hadmin]), hfind]
    dsimp only
    rw [haccessT, if_neg (by simp), hval, hev]
    exact ⟨rfl, applyPutUpdate_isLocked_some entry req false hlk⟩
  · decide

/-- C4, witness.  The locked-reject branch applied at a concrete store: a
staff resubmission against a locked row is rejected and the store is
unchanged. -/
theorem c4_locked_row_update_semantics_witness :
    postCardEntry
      { users := [{ id := 2, role := Role.staff, assignedClients := [7] }],
        clients := [{ id := 7, name := "A", isActive := true }],
        cards := [{ id := 11, title := "K", fieldTitles := [],
                    enabledFields := [0, 1, 2, 3], assignedClients := [7],
                    createdBy := 1 }],
        cardEntries := [{ id := 0, cardId := 11, clientId := 7, fieldIndex := 3,
                          value := some "v1", date := 10 * dayMs,
                          eventDate := none, eventTime := none,
                          isLocked := true, createdBy := 2 }],
        nextCardEntryId := 1 }
      { id := 2, role := Role.staff }
      { cardId := some 11, clientId := some 7, fieldIndex := some 3,
        value := some "v2", date := some 10, eventDate := none,
        eventTime := none }
      0 =
    ({ users := [{ id := 2, role := Role.staff, assignedClients := [7] }],
       clients := [{ id := 7, name := "A", isActive := true }],
       cards := [{ id := 11, title := "K", fieldTitles := [],
                   enabledFields := [0, 1, 2, 3], assignedClients := [7],
                   createdBy := 1 }],
       cardEntries := [{ id := 0, cardId := 11, clientId := 7, fieldIndex := 3,
                         value := some "v1", date := 10 * dayMs,
                         eventDate := none, eventTime := none,
                         isLocked := true, createdBy := 2 }],
       nextCardEntryId := 1 },
     CardEntryResp.forbidden
       "This field is locked and can only be edited by an administrator") := by
  exact (c4_locked_row_update_semantics.1
    { users := [{ id := 2, role := Role.staff, assignedClients := [7] }],
      clients := [{ id := 7, name := "A", isActive := true }],
      cards := [{ id := 11, title := "K", fieldTitles := [],
                  enabledFields := [0, 1, 2, 3], assignedClients := [7],
                  createdBy := 1 }],
      cardEntries := [{ id := 0, cardId := 11, clientId := 7, fieldIndex := 3,
                        value := some "v1", date := 10 * dayMs,
                        eventDate := none, eventTime := none,
                        isLocked := true, createdBy := 2 }],
      nextCardEntryId := 1 }
    { id := 2, role := Role.staff }
    { cardId := some 11, clientId := some 7, fieldIndex := some 3,
      value := some "v2", date := some 10, eventDate := none,
      eventTime := none }
    0 11 7 3
    { id := 11, title := "K", fieldTitles := [], enabledFields := [0, 1, 2, 3],
      assignedClients := [7], createdBy := 1 }
    { id := 7, name := "A", isActive := true }
    { id := 0, cardId := 11, clientId := 7, fieldIndex := 3,
      value := some "v1", date := 10 * dayMs, eventDate := none,
      eventTime := none, isLocked := true, createdBy := 2 }
    rfl rfl rfl (by decide) (by decide)
    (fun _ => ⟨"v2", rfl, by decide, by decide, by decide⟩)
    (fun t hteq => by cases hteq)
    (by decide) (by decide) (by decide) (by decide) (by decide)
    (by decide)).1 rfl (by decide)

theorem postCardEntry_client_stage (db : CardDB) (actor : Actor)
    (req : CardEntryReq) (now : Nat) (cardId clientId : Nat) (fi : Int)
    (card : Card) (client : Client)
    (h1 : req.cardId = some cardId)
    (h2 : req.clientId = some clientId)
    (h3 : req.fieldIndex = some fi)
    (h4 : 0 ≤ fi)
    (h5 : fi ≤ 10)
    (hv : fi.toNat ≠ 10 → ∃ v, req.value = some v ∧ v ≠ "" ∧
      jsLength (jsTrim v) ≠ 0 ∧ jsLength v ≤ 5000)
    (ht : ∀ t, req.eventTime = some t → fi.toNat = 10 → t ≠ "" →
      isValidEventTime t = true)
    (hcard : db.cards.find? (fun c => decide (c.id = cardId)) = some card)
    (hclient : db.clients.find? (fun c => decide (c.id = clientId)) = some client) :
    postCardEntry db actor req now =
      (if card.assignedClients.contains clientId = false then
        (db, CardEntryResp.badRequest "Card is not assigned to this client")
      else if hasClientAccess db.users actor.id actor.role clientId = false then
        (db, CardEntryResp.forbidden "You do not have access to this client")
      else if client.isActive = false then
        (db, CardEntryResp.badRequest "Cannot create entry for inactive client")
      else
        postCardEntryChecked db actor cardId clientId fi.toNat req.value
          (if fi.toNat = 10 then req.eventDate.map (fun d => d * dayMs) else none)
          req.eventTime
          (match req.date with | some d => d * dayMs | none => now)) := by
  have hfi10 : (fi = 10 ∧ fi.toNat = 10) ∨ (fi ≠ 10 ∧ fi.toNat ≠ 10) := by
    omega
  unfold postCardEntry
  rw [h1, h2, h3]
  rw [if_neg (by simp)]
  simp only [Option.getD_some]
  rw [if_neg (by
    rintro ⟨hne10, hbad⟩
    rcases hfi10 with ⟨rfl, _⟩ | ⟨_, hten⟩
    · exact hne10 rfl
    · obtain ⟨v, hveq, hvne, _, _⟩ := hv hten
      rw [hveq] at hbad
      rcases hbad with h | h
      · cases h
      · exact hvne (by injection h))]
  rw [if_neg (by omega)]
  rw [if_neg (by
    rintro ⟨hne10, htrim0⟩
    obtain ⟨v, hveq, _, htne, _⟩ := hv hne10
    rw [hveq] at htrim0
    exact htne htrim0)]
  rw [if_neg (by
    rintro ⟨hne10, hlong⟩
    obtain ⟨v, hveq, _, _, hle⟩ := hv hne10
    rw [hveq] at hlong
    simp only [Option.getD_some] at hlong
    omega)]
  rw [if_neg (by
    cases hev : req.eventTime with
    | none => simp
    | some t =>
      simp only [decide_eq_true_eq]
      rintro ⟨hten, htne, hbad⟩
      rw [ht t hev hten htne] at hbad
      cases hbad)]
  rw [hcard]
  dsimp only
  rw [hclient]

/-- C5, counterexample.  The claim states that no card field entry is ever
written for a slot the template has disabled.  The create handler never
consults the card's `enabledFields`: here the template enables only slot 0,
yet a create call for slot 3 is accepted and a row for the disabled slot is
inserted into the store. -/
theorem c5_disabled_slot_counterexample :
    postCardEntry
      { users := [{ id := 1, role := Role.admin, assignedClients := [] }],
        clients := [{ id := 7, name := "A", isActive := true }],
        cards := [{ id := 11, title := "K", fieldTitles := [],
                    enabledFields := [0], assignedClients := [7],
                    createdBy := 1 }],
        cardEntries := [], nextCardEntryId := 0 }
      { id := 1, role := Role.admin }
      { cardId := some 11, clientId := some 7, fieldIndex := some 3,
        value := some "v1", date := some 10, eventDate := none,
        eventTime := none }
      0 =
    ({ users := [{ id := 1, role := Role.admin, assignedClients := [] }],
       clients := [{ id := 7, name := "A", isActive := true }],
       cards := [{ id := 11, title := "K", fieldTitles := [],
                   enabledFields := [0], assignedClients := [7],
                   createdBy := 1 }],
       cardEntries := [{ id := 0, cardId := 11, clientId := 7, fieldIndex := 3,
                         value := some "v1", date := 10 * dayMs,
                         eventDate := none, eventTime := none,
                         isLocked := false, createdBy := 1 }],
       nextCardEntryId := 1 },
     CardEntryResp.created
       { id := 0, cardId := 11, clientId := 7, fieldIndex := 3,
         value := some "v1", date := 10 * dayMs, eventDate := none,
         eventTime := none, isLocked := false, createdBy := 1 }) := by
  decide

/-- C5, amended.  A card-field create call against a card that is not
assigned to the target client, or against an inactive client, is rejected
with the store unchanged; the handler performs no check of the template's
`enabledFields`, so a write to a disabled slot is not prevented (the
counterexample exhibits one). -/
theorem c5_pre_write_rejections_amended :
    ∀ (db : CardDB) (actor : Actor) (req : CardEntryReq)
      (now cardId clientId : Nat) (fi : Int) (card : Card) (client : Client),
      req.cardId = some cardId →
      req.clientId = some clientId →
      req.fieldIndex = some fi →
      0 ≤ fi →
      fi ≤ 10 →
      (fi.toNat ≠ 10 → ∃ v, req.value = some v ∧ v ≠ "" ∧
        jsLength (jsTrim v) ≠ 0 ∧ jsLength v ≤ 5000) →
      (∀ t, req.eventTime = some t → fi.toNat = 10 → t ≠ "" →
        isValidEventTime t = true) →
      db.cards.find? (fun c => decide (c.id = cardId)) = some card →
      db.clients.find? (fun c => decide (c.id = clientId)) = some client →
      ((card.assignedClients.contains clientId = false →
        postCardEntry db actor req now =
          (db, CardEntryResp.badRequest "Card is not assigned to this client")) ∧
       (card.assignedClients.contains clientId = true →
        hasClientAccess db.users actor.id actor.role clientId = true →
        client.isActive = false →
        postCardEntry db actor req now =
          (db, CardEntryResp.badRequest "Cannot create entry for inactive client"))) := by
  intro db actor req now cardId clientId fi card client h1 h2 h3 h4 h5 hv ht
    hcard hclient
  have hstage := postCardEntry_client_stage db actor req now cardId clientId
    fi card client h1 h2 h3 h4 h5 hv ht hcard hclient
  constructor
  · intro hna
    rw [hstage, hna, if_pos rfl]
  · intro hassigned haccess hinactive
    rw [hstage]
    rw [if_neg (by rw [hassigned]; simp)]
    rw [if_neg (by rw [haccess]; simp)]
    rw [hinactive, if_pos rfl]

/-- C5, witness.  The unassigned-card rejection applied at a concrete store:
the card is assigned to client 8 only, so a create call for client 7 is
rejected and the store is unchanged. -/
theorem c5_pre_write_rejections_amended_witness :
    postCardEntry
      { users := [{ id := 1, role := Role.admin, assignedClients := [] }],
        clients := [{ id := 7, name := "A", isActive := true }],
        cards := [{ id := 11, title := "K", fieldTitles := [],
                    enabledFields := [0], assignedClients := [8],
                    createdBy := 1 }],
        cardEntries := [], nextCardEntryId := 0 }
      { id := 1, role := Role.admin }
      { cardId := some 11, clientId := some 7, fieldIndex := some 3,
        value := some "v1", date := some 10, eventDate := none,
        eventTime := none }
      0 =
    ({ users := [{ id := 1, role := Role.admin, assignedClients := [] }],
       clients := [{ id := 7, name := "A", isActive := true }],
       cards := [{ id := 11, title := "K", fieldTitles := [],
                   enabledFields := [0], assignedClients := [8],
                   createdBy := 1 }],
       cardEntries := [], nextCardEntryId := 0 },
     CardEntryResp.badRequest "Card is not assigned to this client") := by
  exact (c5_pre_write_rejections_amended
    { users := [{ id := 1, role := Role.admin, assignedClients := [] }],
      clients := [{ id := 7, name := "A", isActive := true }],
      cards := [{ id := 11, title := "K", fieldTitles := [],
                  enabledFields := [0], assignedClients := [8],
                  createdBy := 1 }],
      cardEntries := [], nextCardEntryId := 0 }
    { id := 1, role := Role.admin }
    { cardId := some 11, clientId := some 7, fieldIndex := some 3,
      value := some "v1", date := some 10, eventDate := none,
      eventTime := none }
    0 11 7 3
    { id := 11, title := "K", fieldTitles := [], enabledFields := [0],
      assignedClients := [8], createdBy := 1 }
    { id := 7, name := "A", isActive := true }
    rfl rfl rfl (by decide) (by decide)
    (fun _ => ⟨"v1", rfl, by decide, by decide, by decide⟩)
    (fun t hteq => by cases hteq)
    (by decide) (by decide)).1 (by decide)

/-- C6, counterexample.  The claim states that a create call for field index
10 is accepted only when at least one of value, eventDate, eventTime is
present.  The handler has no such at-least-one check: here a slot-10 call
carrying none of the three is accepted and inserts a row whose value,
eventDate and eventTime are all absent. -/
theorem c6_field10_empty_accept_counterexample :
    postCardEntry
      { users := [{ id := 1, role := Role.admin, assignedClients := [] }],
        clients := [{ id := 7, name := "A", isActive := true }],
        cards := [{ id := 11, title := "K", fieldTitles := [],
                    enabledFields := [0, 10], assignedClients := [7],
                    createdBy := 1 }],
        cardEntries := [], nextCardEntryId := 0 }
      { id := 1, role := Role.admin }
      { cardId := some 11, clientId := some 7, fieldIndex := some 10,
        value := none, date := some 10, eventDate := none, eventTime := none }
      0 =
    ({ users := [{ id := 1, role := Role.admin, assignedClients := [] }],
       clients := [{ id := 7, name := "A", isActive := true }],
       cards := [{ id := 11, title := "K", fieldTitles := [],
                   enabledFields := [0, 10], assignedClients := [7],
                   createdBy := 1 }],
       cardEntries := [{ id := 0, cardId := 11, clientId := 7, fieldIndex := 10,
                         value := none, date := 10 * dayMs, eventDate := none,
                         eventTime := none, isLocked := false, createdBy := 1 }],
       nextCardEntryId := 1 },
     CardEntryResp.created
       { id := 0, cardId := 11, clientId := 7, fieldIndex := 10,
         value := none, date := 10 * dayMs, eventDate := none,
         eventTime := none, isLocked := false, createdBy := 1 }) := by
  decide

/-- C6, amended.  A create call with a field index between 0 and 9 is
rejected (store unchanged) whenever the value is absent, empty, or blank
after trimming; a call with field index 10 passes validation with none of
value, eventDate, eventTime supplied — there is no at-least-one requirement,
and such a call that clears every other check inserts a row. -/
theorem c6_value_requirements_amended :
    (∀ (db : CardDB) (actor : Actor) (req : CardEntryReq)
       (now cardId clientId : Nat) (fi : Int),
      req.cardId = some cardId →
      req.clientId = some clientId →
      req.fieldIndex = some fi →
      0 ≤ fi →
      fi ≤ 9 →
      (req.value = none ∨ req.value = some "" ∨
        jsLength (jsTrim (req.value.getD "")) = 0) →
      ∃ msg, postCardEntry db actor req now =
        (db, CardEntryResp.badRequest msg)) ∧
    (∀ (db : CardDB) (actor : Actor) (req : CardEntryReq)
       (now cardId clientId : Nat) (card : Card) (client : Client),
      req.cardId = some cardId →
      req.clientId = some clientId →
      req.fieldIndex = some 10 →
      req.value = none →
      req.eventDate = none →
      req.eventTime = none →
      db.cards.find? (fun c => decide (c.id = cardId)) = some card →
      db.clients.find? (fun c => decide (c.id = clientId)) = some client →
      card.assignedClients.contains clientId = true →
      hasClientAccess db.users actor.id actor.role clientId = true →
      client.isActive = true →
      db.cardEntries.find? (cardEntryDayMatch cardId clientId 10
        (match req.date with | some d => d * dayMs | none => now)) = none →
      ∃ e : CardEntry,
        postCardEntry db actor req now =
          ({ db with cardEntries := e :: db.cardEntries,
                     nextCardEntryId := db.nextCardEntryId + 1 },
           CardEntryResp.created e) ∧
        e.value = none ∧ e.eventDate = none ∧ e.eventTime = none) := by
  constructor
  · intro db actor req now cardId clientId fi h1 h2 h3 h4 h5 hbad
    by_cases hfalsy : req.value = none ∨ req.value = some ""
    · refine ⟨"value is required for fields 0-9", ?_⟩
      unfold postCardEntry
      rw [h1, h2, h3]
      rw [if_neg (by simp)]
      simp only [Option.getD_some]
      rw [if_pos ⟨by omega, hfalsy⟩]
    · have htrim0 : jsLength (jsTrim (req.value.getD "")) = 0 := by
        rcases hbad with h | h | h
        · exact absurd (Or.inl h) hfalsy
        · exact absurd (Or.inr h) hfalsy
        · exact h
      refine ⟨"Value cannot be empty", ?_⟩
      unfold postCardEntry
      rw [h1, h2, h3]
      rw [if_neg (by simp)]
      simp only [Option.getD_some]
      rw [if_neg (by rintro ⟨_, hx⟩; exact hfalsy hx)]
      rw [if_neg (by omega)]
      rw [if_pos ⟨by omega, htrim0⟩]
  · intro db actor req now cardId clientId card client h1 h2 h3 hval hed het
      hcard hclient hassigned haccess hactive hfind
    have hcore := postCardEntry_core db actor req now cardId clientId 10 card
      client h1 h2 h3 (by decide) (by decide)
      (fun h => absurd rfl h)
      (fun t hteq => by rw [het] at hteq; cases hteq)
      hcard hclient hassigned haccess hactive
    rw [show ((10 : Int).toNat) = 10 from rfl] at hcore
    rw [hcore]
    unfold postCardEntryChecked
    rw [hfind]
    dsimp only
    refine ⟨_, rfl, ?_, ?_, ?_⟩
    all_goals unfold mkCardEntry
    all_goals simp [hval, hed, het]

/-- C6, witness.  The 0-9 branch applied at a concrete request whose value
is a blank string: the call is rejected. -/
theorem c6_value_requirements_amended_witness :
    ∃ msg, postCardEntry
      { users := [], clients := [], cards := [], cardEntries := [],
        nextCardEntryId := 0 }
      { id := 1, role := Role.admin }
      { cardId := some 11, clientId := some 7, fieldIndex := some 3,
        value := some " ", date := none, eventDate := none, eventTime := none }
      0 =
      ({ users := [], clients := [], cards := [], cardEntries := [],
         nextCardEntryId := 0 }, CardEntryResp.badRequest msg) := by
  exact c6_value_requirements_amended.1
    { users := [], clients := [], cards := [], cardEntries := [],
      nextCardEntryId := 0 }
    { id := 1, role := Role.admin }
    { cardId := some 11, clientId := some 7, fieldIndex := some 3,
      value := some " ", date := none, eventDate := none, eventTime := none }
    0 11 7 3 rfl rfl rfl (by decide) (by decide)
    (Or.inr (Or.inr (by decide)))

/-- C7.  A role-update call that promotes a non-admin user to admin returns
the target with an empty `assignedClients` list and stores an empty list for
every user holding the target id; and any call whose acting user id equals
the target id is rejected with the store unchanged, whatever role string was
requested. -/
theorem c7_role_update_semantics :
    (∀ (users : List User) (actorId targetId : Nat) (user : User),
      actorId ≠ targetId →
      users.find? (fun u => decide (u.id = targetId)) = some user →
      user.role ≠ Role.admin →
      (updateUserRole users actorId targetId "admin").2 =
        UserResp.ok { user with role := Role.admin, assignedClients := [] } ∧
      (∀ u ∈ (updateUserRole users actorId targetId "admin").1,
        u.id = targetId → u.assignedClients = [])) ∧
    (∀ (users : List User) (actorId : Nat) (roleStr : String),
      (updateUserRole users actorId actorId roleStr).1 = users ∧
      ∃ msg, (updateUserRole users actorId actorId roleStr).2 =
        UserResp.badRequest msg) := by
  constructor
  · intro users actorId targetId user hne hfind hrole
    unfold updateUserRole
    rw [show parseRole "admin" = some Role.admin from rfl]
    dsimp only
    rw [if_neg hne, hfind]
    dsimp only
    constructor
    · unfold applyRoleUpdate
      rw [if_pos ⟨rfl, hrole⟩]
    · intro u hu htarget
      obtain ⟨u0, _, rfl⟩ := List.mem_map.mp hu
      by_cases hcase : u0.id = targetId
      · simp only [if_pos hcase]
        unfold applyRoleUpdate
        rw [if_pos ⟨rfl, hrole⟩]
      · rw [if_neg hcase] at htarget ⊢
        exact absurd htarget hcase
  · intro users actorId roleStr
    unfold updateUserRole
    cases hparse : parseRole roleStr with
    | none => exact ⟨rfl, _, rfl⟩
    | some role =>
      dsimp only
      rw [if_pos rfl]
      exact ⟨rfl, _, rfl⟩

/-- C7, witness.  Promoting staff user 5 to admin at a concrete store clears
the assignment list, and user 5 targeting themselves is rejected. -/
theorem c7_role_update_semantics_witness :
    (updateUserRole
      [{ id := 5, role := Role.staff, assignedClients := [3, 4] }] 1 5
      "admin").2 =
      UserResp.ok { id := 5, role := Role.admin, assignedClients := [] } ∧
    (updateUserRole
      [{ id := 5, role := Role.staff, assignedClients := [3, 4] }] 5 5
      "admin").1 =
      [{ id := 5, role := Role.staff, assignedClients := [3, 4] }] := by
  constructor
  · exact (c7_role_update_semantics.1
      [{ id := 5, role := Role.staff, assignedClients := [3, 4] }] 1 5
      { id := 5, role := Role.staff, assignedClients := [3, 4] }
      (by decide) (by decide) (by decide)).1
  · exact (c7_role_update_semantics.2
      [{ id := 5, role := Role.staff, assignedClients := [3, 4] }] 5
      "admin").1

/-- C9, counterexample.  The claim states that a duplicate-key (identity-key
collision) error is translated to a response whose machine-distinguishable
kind is a distinct conflict kind.  The only machine-readable kind in the
formatted response is the HTTP status, and the duplicate-key translation
carries status 400 — exactly the status of the validation translation, and
byte-for-byte the shape of a cast-error response — so the conflict is not
distinguishable from the validation kind.  Concretely, a Mongo 11000 error
on the cardId index and a Mongoose validation error both format to status
400. -/
theorem c9_duplicate_key_status_counterexample :
    (formatErrorResponse
      { name := "MongoServerError", code := some 11000, status := none,
        message := "E11000 duplicate key", validationMessages := [],
        keyPatternFields := ["cardId"], path := "", value := "" }
      "Failed to create card entry").status = 400 ∧
    (formatErrorResponse
      { name := "ValidationError", code := none, status := none,
        message := "Entry validation failed", validationMessages := ["bad"],
        keyPatternFields := [], path := "", value := "" }
      "Failed to create card entry").status = 400 := by
  decide

/-- C9, amended.  Every duplicate-key error from the storage layer (code
11000, not shadowed by a Mongoose validation error) is translated to a
status-400 response with message `<first indexed field> already exists` and
no validation message list.  This 400 status separates it from the
not-found (404) and forbidden (403) responses the handlers emit directly,
but coincides with the status of the validation kind, so the conflict is
not machine-distinguishable from validation errors. -/
theorem c9_duplicate_key_translation_amended :
    ∀ (err : JsError) (defaultMessage : String),
      err.name ≠ "ValidationError" →
      err.code = some 11000 →
      formatErrorResponse err defaultMessage =
        { status := 400,
          message := err.keyPatternFields.headD "undefined" ++ " already exists",
          errors := none } := by
  intro err d hname hcode
  unfold formatErrorResponse handleValidationError handleDuplicateKeyError
  rw [if_neg hname]
  dsimp only
  rw [if_pos hcode]

/-- C9, witness.  The amended translation applied to a concrete duplicate-key
error on the email index. -/
theorem c9_duplicate_key_translation_amended_witness :
    formatErrorResponse
      { name := "MongoServerError", code := some 11000, status := none,
        message := "E11000 duplicate key", validationMessages := [],
        keyPatternFields := ["email"], path := "", value := "" }
      "Failed to register" =
      { status := 400, message := "email already exists", errors := none } := by
  exact c9_duplicate_key_translation_amended
    { name := "MongoServerError", code := some 11000, status := none,
      message := "E11000 duplicate key", validationMessages := [],
      keyPatternFields := ["email"], path := "", value := "" }
    "Failed to register" (by decide) (by decide)

/-- C10.  The card template read-by-id handler runs behind authentication
only: whenever the card exists it returns the full template to any actor,
and its result does not depend on the actor's role or assignments at all, so
no authenticated caller can receive a forbidden response from it. -/
theorem c10_card_read_no_access_check :
    ∀ (cards : List Card) (actor : Actor) (cardId : Nat) (card : Card),
      cards.find? (fun c => decide (c.id = cardId)) = some card →
      getCardById cards actor cardId = CardResp.ok card ∧
      ∀ actor2 : Actor,
        getCardById cards actor cardId = getCardById cards actor2 cardId := by
  intro cards actor cardId card hfind
  constructor
  · unfold getCardById
    rw [hfind]
  · intro actor2
    rfl

/-- C10, witness.  A staff actor with no assignments reads an existing card
template and receives it in full. -/
theorem c10_card_read_no_access_check_witness :
    getCardById
      [{ id := 11, title := "K", fieldTitles := ["a"], enabledFields := [0],
         assignedClients := [7], createdBy := 1 }]
      { id := 99, role := Role.staff } 11 =
      CardResp.ok
        { id := 11, title := "K", fieldTitles := ["a"], enabledFields := [0],
          assignedClients := [7], createdBy := 1 } := by
  exact (c10_card_read_no_access_check
    [{ id := 11, title := "K", fieldTitles := ["a"], enabledFields := [0],
       assignedClients := [7], createdBy := 1 }]
    { id := 99, role := Role.staff } 11
    { id := 11, title := "K", fieldTitles := ["a"], enabledFields := [0],
      assignedClients := [7], createdBy := 1 }
    (by decide)).1

end Capstone
